import Mathlib

/-!
Verification development for the medianet analytics backend
(`backend/advertiser.py`, `backend/publisher.py`, `backend/keywordanalysis.py`,
`backend/ragengine.py`, `backend/exa_agent.py`).

The Python code is shallowly embedded: JSON documents become values of an
inductive `Json` type, handlers become Lean functions, and the external
collaborators excluded by the specification (the sentence-embedding model,
torch, the Gemini/Exa network calls) enter as explicit function parameters
(oracles).  Machine floats in the static payloads are modelled as rationals.
-/

/-- JSON-like documents, the values produced by the backend handlers.
Python dicts keep insertion order, so objects are association lists. -/
inductive Json where
  | null
  | bool (b : Bool)
  | num (q : ℚ)
  | str (s : String)
  | arr (xs : List Json)
  | obj (fields : List (String × Json))

namespace Json

/-- Dictionary read: first value bound to key `k` (Python dict keys are unique). -/
def getField : Json → String → Option Json
  | .obj fs, k => fs.lookup k
  | _, _ => none

/-- Python `d[k] = v` on a dict: replace the value in place if the key exists
(insertion order keeps the original position), else append at the end. -/
def setField (j : Json) (k : String) (v : Json) : Json :=
  match j with
  | .obj fs => .obj (go fs)
  | other => other
where
  go : List (String × Json) → List (String × Json)
    | [] => [(k, v)]
    | (k', v') :: rest => if k' = k then (k', v) :: rest else (k', v') :: go rest

/-- String read with default: `d['k']` where the value is known to be a string. -/
def getStrD (j : Json) (k : String) : String :=
  match j.getField k with
  | some (.str s) => s
  | _ => ""

/-- Whether the document is a JSON object (a Python dict). -/
def isObj : Json → Bool
  | .obj _ => true
  | _ => false

/-- The keys of an object, in insertion order. -/
def keys : Json → List String
  | .obj fs => fs.map Prod.fst
  | _ => []

/-- The field list of an object (used for Python `{**a, **b}` merges). -/
def fieldsOf : Json → List (String × Json)
  | .obj fs => fs
  | _ => []

end Json

/-! ### Python string primitives used by the backend (ASCII behaviour) -/

/-- Python `str.lower()` restricted to the ASCII strings this backend feeds it. -/
def pyLower (s : String) : String := ⟨s.data.map Char.toLower⟩

/-- Python whitespace class `\s` over ASCII (space, tab, LF, CR, FF, VT). -/
def pyIsSpace (c : Char) : Bool :=
  c = ' ' || c = '\t' || c = '\n' || c = '\r' || c = '\x0c' || c = '\x0b'

/-- Python `str.strip()` over ASCII whitespace. -/
def pyStrip (s : String) : String :=
  ⟨((s.data.dropWhile pyIsSpace).reverse.dropWhile pyIsSpace).reverse⟩

/-- Python slicing `s[:n]`. -/
def pyTake (n : Nat) (s : String) : String := ⟨s.data.take n⟩

theorem pyLower_data (s : String) : (pyLower s).data = s.data.map Char.toLower := rfl

/-! ### Advertiser static metric handlers (`backend/advertiser.py`) -/

namespace Advertiser

/-- Handler for `GET /impressions` (advertiser.py `get_impressions`). -/
def get_impressions : Unit → Json := fun _ => .obj [
  ("metric", .str "impressions"),
  ("value", .num 20000),
  ("description", .str "How many times your ad was shown"),
  ("chart_data", .obj [
    ("type", .str "bar"),
    ("title", .str "Daily Impressions (Last 7 Days)"),
    ("labels", .arr [.str "Sep 20", .str "Sep 21", .str "Sep 22", .str "Sep 23",
                     .str "Sep 24", .str "Sep 25", .str "Sep 26"]),
    ("data", .arr [.num 18500, .num 19200, .num 20000, .num 19800, .num 21000,
                   .num 19500, .num 20000]),
    ("backgroundColor", .str "#4285F4")])]

/-- Handler for `GET /clicks` (advertiser.py `get_clicks`). -/
def get_clicks : Unit → Json := fun _ => .obj [
  ("metric", .str "clicks"),
  ("value", .num 1000),
  ("ctr", .num 0.05),
  ("description", .str "How many clicks you got (CTR)"),
  ("chart_data", .obj [
    ("type", .str "line"),
    ("title", .str "Click Performance & CTR Trend"),
    ("labels", .arr [.str "Sep 20", .str "Sep 21", .str "Sep 22", .str "Sep 23",
                     .str "Sep 24", .str "Sep 25", .str "Sep 26"]),
    ("datasets", .arr [
      .obj [("label", .str "Clicks"),
            ("data", .arr [.num 925, .num 960, .num 1000, .num 990, .num 1050,
                           .num 975, .num 1000]),
            ("borderColor", .str "#34A853"),
            ("yAxisID", .str "y")],
      .obj [("label", .str "CTR %"),
            ("data", .arr [.num 4.8, .num 4.9, .num 5.0, .num 4.9, .num 5.1,
                           .num 4.7, .num 5.0]),
            ("borderColor", .str "#EA4335"),
            ("yAxisID", .str "y1")]])])]

/-- Handler for `GET /conversions` (advertiser.py `get_conversions`). -/
def get_conversions : Unit → Json := fun _ => .obj [
  ("metric", .str "conversions"),
  ("value", .num 50),
  ("description", .str "Sign-ups, purchases, or goals completed"),
  ("chart_data", .obj [
    ("type", .str "funnel"),
    ("title", .str "Conversion Funnel"),
    ("stages", .arr [
      .obj [("name", .str "Impressions"), ("value", .num 20000), ("color", .str "#4285F4")],
      .obj [("name", .str "Clicks"), ("value", .num 1000), ("color", .str "#34A853")],
      .obj [("name", .str "Conversions"), ("value", .num 50), ("color", .str "#FBBC04")],
      .obj [("name", .str "Completed"), ("value", .num 45), ("color", .str "#EA4335")]])])]

/-- Handler for `GET /cpc` (advertiser.py `get_cpc`). -/
def get_cpc : Unit → Json := fun _ => .obj [
  ("metric", .str "cpc"), ("value", .num 0.5), ("description", .str "Cost Per Click")]

/-- Handler for `GET /cpm` (advertiser.py `get_cpm`). -/
def get_cpm : Unit → Json := fun _ => .obj [
  ("metric", .str "cpm"), ("value", .num 3.0), ("description", .str "Cost Per Mille")]

/-- Handler for `GET /cpa` (advertiser.py `get_cpa`). -/
def get_cpa : Unit → Json := fun _ => .obj [
  ("metric", .str "cpa"), ("value", .num 10.0), ("description", .str "Cost Per Acquisition")]

/-- Handler for `GET /spend` (advertiser.py `get_spend`). -/
def get_spend : Unit → Json := fun _ => .obj [
  ("metric", .str "spend"),
  ("value", .num 500.0),
  ("description", .str "Total money spent"),
  ("chart_data", .obj [
    ("type", .str "doughnut"),
    ("title", .str "Ad Spend Breakdown"),
    ("labels", .arr [.str "Search Ads", .str "Display Ads", .str "Video Ads", .str "Social Ads"]),
    ("data", .arr [.num 200, .num 150, .num 100, .num 50]),
    ("backgroundColor", .arr [.str "#4285F4", .str "#34A853", .str "#FBBC04", .str "#EA4335"])])]

/-- Handler for `GET /roi` (advertiser.py `get_roi`). -/
def get_roi : Unit → Json := fun _ => .obj [
  ("metric", .str "roi"),
  ("value", .num 2.5),
  ("roas", .num 3.0),
  ("description", .str "ROI / ROAS"),
  ("chart_data", .obj [
    ("type", .str "gauge"),
    ("title", .str "ROI Performance"),
    ("value", .num 2.5),
    ("max", .num 5.0),
    ("thresholds", .arr [
      .obj [("value", .num 1.0), ("color", .str "#EA4335"), ("label", .str "Poor")],
      .obj [("value", .num 2.0), ("color", .str "#FBBC04"), ("label", .str "Good")],
      .obj [("value", .num 3.0), ("color", .str "#34A853"), ("label", .str "Excellent")]])])]

end Advertiser

/-- Catalog `ADVERTISER_METRICS`: metric key -> human readable description,
in the insertion order of the Python dict literal. -/
def ADVERTISER_METRICS : List (String × String) := [
  ("impressions", "How many times your ad was shown"),
  ("clicks", "How many clicks you got (CTR)"),
  ("conversions", "Sign-ups, purchases, or goals completed"),
  ("cpc", "Cost Per Click"),
  ("cpm", "Cost Per Mille"),
  ("cpa", "Cost Per Acquisition"),
  ("spend", "Total money spent"),
  ("roi", "ROI / ROAS")]

/-- Dispatch table `ADVERTISER_FUNCTION_MAP`: metric key -> zero-argument handler. -/
def ADVERTISER_FUNCTION_MAP : List (String × (Unit → Json)) := [
  ("impressions", Advertiser.get_impressions),
  ("clicks", Advertiser.get_clicks),
  ("conversions", Advertiser.get_conversions),
  ("cpc", Advertiser.get_cpc),
  ("cpm", Advertiser.get_cpm),
  ("cpa", Advertiser.get_cpa),
  ("spend", Advertiser.get_spend),
  ("roi", Advertiser.get_roi)]

/-- Key list `advertiser_metric_keys = list(ADVERTISER_METRICS.keys())`. -/
def advertiser_metric_keys : List String := ADVERTISER_METRICS.map Prod.fst

/-- Python `FUNCTION_MAP[key]()`.  A missing key would raise `KeyError`; the
routers only look up keys of the map, so the `.null` default is unreachable. -/
def applyMap (m : List (String × (Unit → Json))) (k : String) : Json :=
  match m.lookup k with
  | some f => f ()
  | none => .null

/-- The two decoration assignments both routers perform on a routed metric
payload: `result["chat_response"] = f"Here's your {result['metric']} data with
visualization"` and `result["timestamp"] = "2025-09-26T10:30:00Z"`. -/
def addChartContext (result : Json) : Json :=
  (result.setField "chat_response"
      (.str ("Here\x27s your " ++ result.getStrD "metric" ++ " data with visualization"))).setField
    "timestamp" (.str "2025-09-26T10:30:00Z")

/-- Model of `torch.argmax` on a 1-D tensor given as a list: index of the first maximal
element (torch returns the first occurrence among ties); 0 on the empty list. -/
def argmaxIdx : List ℚ → Nat
  | [] => 0
  | [_] => 0
  | x :: y :: ys =>
    let t := argmaxIdx (y :: ys)
    if (y :: ys).getD t 0 > x then t + 1 else 0

/-- The no-match error message of `handle_advertiser_query`. -/
def advertiserNoMatchMsg : String :=
  "No matching advertiser metric found. Try asking about impressions, clicks, conversions, CPC, CPM, CPA, spend, or ROI."

/-- Router `POST /query` of the advertiser service (advertiser.py
`handle_advertiser_query`).  The composite of `model.encode` and
`util.cos_sim(..., advertiser_metric_embeddings)[0]` — both external numeric
libraries — is the oracle `sims`, mapping the lowered query to its list of
cosine similarities against the 8 cached catalog embeddings. -/
def handle_advertiser_query (sims : String → List ℚ) (queryRaw : String) : Json :=
  let query := pyLower queryRaw
  if query ∈ advertiser_metric_keys then
    addChartContext (applyMap ADVERTISER_FUNCTION_MAP query)
  else
    let s := sims query
    let idx := argmaxIdx s
    let maxSim := s.getD idx 0
    if maxSim < mkRat 3 10 then -- the 0.3 relevance threshold
      .obj [("error", .str advertiserNoMatchMsg)]
    else
      addChartContext (applyMap ADVERTISER_FUNCTION_MAP (advertiser_metric_keys.getD idx ""))

/-! ### Publisher static metric handlers (`backend/publisher.py`) -/

namespace Publisher

/-- Handler for `GET /impressions` (publisher.py `get_impressions`). -/
def get_impressions : Unit → Json := fun _ => .obj [
  ("metric", .str "impressions"),
  ("value", .num 10000),
  ("description", .str "How many times ads were shown"),
  ("chart_data", .obj [
    ("type", .str "bar"),
    ("title", .str "Daily Impressions (Last 7 Days)"),
    ("labels", .arr [.str "Sep 20", .str "Sep 21", .str "Sep 22", .str "Sep 23",
                     .str "Sep 24", .str "Sep 25", .str "Sep 26"]),
    ("data", .arr [.num 9500, .num 9800, .num 10000, .num 9900, .num 10200,
                   .num 9700, .num 10000]),
    ("backgroundColor", .str "#4285F4")])]

/-- Handler for `GET /clicks` (publisher.py `get_clicks`). -/
def get_clicks : Unit → Json := fun _ => .obj [
  ("metric", .str "clicks"),
  ("value", .num 500),
  ("ctr", .num 0.05),
  ("description", .str "How many times ads were clicked (CTR)"),
  ("chart_data", .obj [
    ("type", .str "line"),
    ("title", .str "Click Performance & CTR Trend"),
    ("labels", .arr [.str "Sep 20", .str "Sep 21", .str "Sep 22", .str "Sep 23",
                     .str "Sep 24", .str "Sep 25", .str "Sep 26"]),
    ("datasets", .arr [
      .obj [("label", .str "Clicks"),
            ("data", .arr [.num 475, .num 490, .num 500, .num 495, .num 510,
                           .num 485, .num 500]),
            ("borderColor", .str "#34A853"),
            ("yAxisID", .str "y")],
      .obj [("label", .str "CTR %"),
            ("data", .arr [.num 5.0, .num 5.0, .num 5.0, .num 5.0, .num 5.0,
                           .num 5.0, .num 5.0]),
            ("borderColor", .str "#EA4335"),
            ("yAxisID", .str "y1")]])])]

/-- Handler for `GET /revenue` (publisher.py `get_revenue`). -/
def get_revenue : Unit → Json := fun _ => .obj [
  ("metric", .str "revenue"),
  ("daily", .num 100.0),
  ("monthly", .num 3000.0),
  ("site_wise", .obj [("site1", .num 1500.0), ("site2", .num 1500.0)]),
  ("description", .str "Revenue / Earnings (daily, monthly, site-wise)"),
  ("chart_data", .obj [
    ("primary", .obj [
      ("type", .str "area"),
      ("title", .str "Revenue Trend (Last 7 Days)"),
      ("labels", .arr [.str "Sep 20", .str "Sep 21", .str "Sep 22", .str "Sep 23",
                       .str "Sep 24", .str "Sep 25", .str "Sep 26"]),
      ("data", .arr [.num 95, .num 98, .num 100, .num 105, .num 102, .num 98, .num 100]),
      ("backgroundColor", .str "rgba(52, 168, 83, 0.2)"),
      ("borderColor", .str "#34A853")]),
    ("secondary", .obj [
      ("type", .str "bar"),
      ("title", .str "Site-wise Revenue Comparison"),
      ("labels", .arr [.str "Site 1", .str "Site 2", .str "Site 3", .str "Site 4"]),
      ("data", .arr [.num 1500, .num 1500, .num 800, .num 700]),
      ("backgroundColor", .arr [.str "#4285F4", .str "#34A853", .str "#FBBC04", .str "#EA4335"])])])]

/-- Handler for `GET /rpm` (publisher.py `get_rpm`). -/
def get_rpm : Unit → Json := fun _ => .obj [
  ("metric", .str "rpm"),
  ("value", .num 5.0),
  ("ecpm", .num 4.8),
  ("description", .str "RPM / eCPM (revenue per 1000 impressions)"),
  ("chart_data", .obj [
    ("type", .str "bar"),
    ("title", .str "RPM vs eCPM Comparison"),
    ("labels", .arr [.str "Week 1", .str "Week 2", .str "Week 3", .str "Week 4"]),
    ("datasets", .arr [
      .obj [("label", .str "RPM"),
            ("data", .arr [.num 4.8, .num 4.9, .num 5.0, .num 5.1]),
            ("backgroundColor", .str "#4285F4")],
      .obj [("label", .str "eCPM"),
            ("data", .arr [.num 4.5, .num 4.6, .num 4.8, .num 4.9]),
            ("backgroundColor", .str "#34A853")]])])]

/-- Handler for `GET /geography` (publisher.py `get_geography`). -/
def get_geography : Unit → Json := fun _ => .obj [
  ("metric", .str "geography"),
  ("breakdown", .obj [("US", .num 60), ("EU", .num 30), ("Other", .num 10)]),
  ("device", .obj [("desktop", .num 40), ("mobile", .num 60)]),
  ("description", .str "Geography / Device breakdown"),
  ("chart_data", .obj [
    ("geography", .obj [
      ("type", .str "pie"),
      ("title", .str "Revenue by Geography"),
      ("labels", .arr [.str "United States", .str "Europe", .str "Asia", .str "Others"]),
      ("data", .arr [.num 60, .num 30, .num 7, .num 3]),
      ("backgroundColor", .arr [.str "#4285F4", .str "#34A853", .str "#FBBC04", .str "#EA4335"])]),
    ("device", .obj [
      ("type", .str "doughnut"),
      ("title", .str "Traffic by Device"),
      ("labels", .arr [.str "Mobile", .str "Desktop", .str "Tablet"]),
      ("data", .arr [.num 60, .num 35, .num 5]),
      ("backgroundColor", .arr [.str "#34A853", .str "#4285F4", .str "#FBBC04"])])])]

end Publisher

/-- Catalog `PUBLISHER_METRICS`: metric key -> description, in insertion order. -/
def PUBLISHER_METRICS : List (String × String) := [
  ("impressions", "How many times ads were shown"),
  ("clicks", "How many times ads were clicked (CTR)"),
  ("revenue", "Revenue / Earnings (daily, monthly, site-wise)"),
  ("rpm", "RPM / eCPM (revenue per 1000 impressions)"),
  ("geography", "Geography / Device breakdown")]

/-- Dispatch table `PUBLISHER_FUNCTION_MAP`: metric key -> zero-argument handler. -/
def PUBLISHER_FUNCTION_MAP : List (String × (Unit → Json)) := [
  ("impressions", Publisher.get_impressions),
  ("clicks", Publisher.get_clicks),
  ("revenue", Publisher.get_revenue),
  ("rpm", Publisher.get_rpm),
  ("geography", Publisher.get_geography)]

/-- Key list `publisher_metric_keys = list(PUBLISHER_METRICS.keys())`. -/
def publisher_metric_keys : List String := PUBLISHER_METRICS.map Prod.fst

/-- Boolean list-prefix test on characters (used for the URL literal scan). -/
def startsWithL : List Char → List Char → Bool
  | [], _ => true
  | _ :: _, [] => false
  | p :: ps, c :: cs => p = c && startsWithL ps cs

/-- Whether a URL match of `https?://` begins at the head of the character list. -/
def urlStartsHere (cs : List Char) : Bool :=
  startsWithL "http://".data cs || startsWithL "https://".data cs

/-- Scanner for `re.findall(r'https?://[^\s]+', s)`: left to right, each match
is maximal (`[^\s]+` is greedy) and the scan resumes after the match
(non-overlapping).  Fuel bounds the recursion by the remaining length. -/
def findUrlsAux : Nat → List Char → List String
  | 0, _ => []
  | _ + 1, [] => []
  | fuel + 1, c :: rest =>
    if urlStartsHere (c :: rest) then
      let tok := (c :: rest).takeWhile (fun ch => !pyIsSpace ch)
      (⟨tok⟩ : String) :: findUrlsAux fuel ((c :: rest).drop tok.length)
    else
      findUrlsAux fuel rest

/-- Model of `re.findall(url_pattern, user_query.query)` with
`url_pattern = r'https?://[^\s]+'`. -/
def findUrls (s : String) : List String := findUrlsAux s.data.length s.data

/-- The no-match error message of `handle_publisher_query`. -/
def publisherNoMatchMsg : String :=
  "No matching publisher metric found. Try asking about impressions, clicks, revenue, RPM, geography, or provide a website URL to analyze."

/-- Router `POST /query` of the publisher service (publisher.py
`handle_publisher_query`).  External collaborators enter as oracles:
`sims` is the composite of `model.encode` and
`util.cos_sim(..., publisher_metric_embeddings)[0]`; `analyze_site` is the
network-bound `/analyze` pipeline, returning the `report` on success and the
raised exception text on failure (the code then answers
`{"error": f"Website analysis failed: {e}"}`).  The final merges
`{"type": ..., "query": ..., **result}` are faithful as appends because the
decorated handler payloads never use the keys `type`, `query` or
`matched_metric`. -/
def handle_publisher_query (sims : String → List ℚ)
    (analyze_site : String → Except String Json) (queryRaw : String) : Json :=
  let query := pyStrip (pyLower queryRaw)
  let urls := findUrls queryRaw
  if urls ≠ [] then
    match analyze_site (urls.getD 0 "") with
    | .ok report =>
        .obj [("type", .str "website_analysis"), ("query", .str queryRaw),
              ("url", .str (urls.getD 0 "")), ("analysis", report)]
    | .error msg => .obj [("error", .str ("Website analysis failed: " ++ msg))]
  else if query ∈ publisher_metric_keys then
    let result := addChartContext (applyMap PUBLISHER_FUNCTION_MAP query)
    .obj ([("type", .str "publisher_metric"), ("query", .str queryRaw)] ++ result.fieldsOf)
  else
    let s := sims query
    let idx := argmaxIdx s
    let maxSim := s.getD idx 0
    if maxSim < mkRat 3 10 then -- the 0.3 relevance threshold
      .obj [("error", .str publisherNoMatchMsg)]
    else
      let found := publisher_metric_keys.getD idx ""
      let result := addChartContext (applyMap PUBLISHER_FUNCTION_MAP found)
      .obj ([("type", .str "publisher_metric"), ("query", .str queryRaw),
             ("matched_metric", .str found)] ++ result.fieldsOf)

/-! ### Claim C1: exact-match routing -/

theorem startsWithL_mem {p cs : List Char} (h : startsWithL p cs = true) :
    ∀ a ∈ p, a ∈ cs := by
  induction p generalizing cs with
  | nil => intro a ha; cases ha
  | cons x xs ih =>
    cases cs with
    | nil => simp [startsWithL] at h
    | cons c rest =>
      simp only [startsWithL, Bool.and_eq_true, decide_eq_true_eq] at h
      intro a ha
      rcases List.mem_cons.mp ha with rfl | ha'
      · exact h.1 ▸ List.mem_cons_self _ _
      · exact List.mem_cons_of_mem _ (ih h.2 a ha')

theorem urlStartsHere_colon {cs : List Char} (h : urlStartsHere cs = true) : ':' ∈ cs := by
  rcases Bool.or_eq_true_iff.mp h with h' | h'
  · exact startsWithL_mem h' ':' (by decide)
  · exact startsWithL_mem h' ':' (by decide)

theorem findUrlsAux_nil_of_no_colon :
    ∀ (fuel : Nat) (cs : List Char), ':' ∉ cs → findUrlsAux fuel cs = [] := by
  intro fuel
  induction fuel with
  | zero => intro cs _; rfl
  | succ n ih =>
    intro cs hc
    cases cs with
    | nil => rfl
    | cons c rest =>
      have hu : urlStartsHere (c :: rest) = false := by
        cases h : urlStartsHere (c :: rest)
        · rfl
        · exact absurd (urlStartsHere_colon h) hc
      simp only [findUrlsAux, hu, Bool.false_eq_true, if_false]
      exact ih rest (fun hmem => hc (List.mem_cons_of_mem _ hmem))

/-- A query without a colon character matches no `https?://[^\s]+` URL. -/
theorem findUrls_nil_of_no_colon {raw : String} (h : ':' ∉ raw.data) : findUrls raw = [] :=
  findUrlsAux_nil_of_no_colon _ _ h

/-- If the lower-cased query is colon-free, so is the query itself
(`Char.toLower` maps only `:` to `:`). -/
theorem no_colon_of_pyLower_eq {raw k : String} (hk : pyLower raw = k)
    (h : ':' ∉ k.data) : ':' ∉ raw.data := by
  intro hmem
  have h1 : (':' : Char).toLower ∈ raw.data.map Char.toLower :=
    List.mem_map_of_mem _ hmem
  have h27 : (':' : Char).toLower = ':' := by decide
  rw [h27, ← pyLower_data, hk] at h1
  exact h h1

/-- A query that lower-cases to a publisher catalog key contains no URL, so the
publisher router's URL branch is not taken for it. -/
theorem findUrls_nil_of_publisher_key {raw : String}
    (h : pyLower raw ∈ publisher_metric_keys) : findUrls raw = [] := by
  have hd : pyLower raw = "impressions" ∨ pyLower raw = "clicks" ∨
      pyLower raw = "revenue" ∨ pyLower raw = "rpm" ∨ pyLower raw = "geography" := by
    simpa [publisher_metric_keys, PUBLISHER_METRICS] using h
  rcases hd with hk | hk | hk | hk | hk <;>
    exact findUrls_nil_of_no_colon (no_colon_of_pyLower_eq hk (by decide))

theorem publisher_key_cases {k : String} (h : k ∈ publisher_metric_keys) :
    k = "impressions" ∨ k = "clicks" ∨ k = "revenue" ∨ k = "rpm" ∨ k = "geography" := by
  simpa [publisher_metric_keys, PUBLISHER_METRICS] using h

theorem pyStrip_publisher_key {k : String} (h : k ∈ publisher_metric_keys) :
    pyStrip k = k := by
  rcases publisher_key_cases h with rfl | rfl | rfl | rfl | rfl <;> decide

/-- Exact-match branch of the advertiser router: for a query lower-casing to a
catalog key the result is the dispatched handler payload plus the two fixed
decoration fields, for any similarity oracle. -/
theorem handle_advertiser_query_exact (sims : String → List ℚ) {raw : String}
    (h : pyLower raw ∈ advertiser_metric_keys) :
    handle_advertiser_query sims raw
      = addChartContext (applyMap ADVERTISER_FUNCTION_MAP (pyLower raw)) := by
  simp only [handle_advertiser_query]
  rw [if_pos h]

/-- Exact-match branch of the publisher router: the URL branch is skipped (a
key-like query has no URL), the stripped lowered query hits the catalog, and
the decorated handler payload is wrapped with the fixed `type`/`query` fields,
for any similarity and analysis oracle. -/
theorem handle_publisher_query_exact (sims : String → List ℚ)
    (az : String → Except String Json) {raw : String}
    (h : pyLower raw ∈ publisher_metric_keys) :
    handle_publisher_query sims az raw =
      .obj (("type", .str "publisher_metric") :: ("query", .str raw) ::
        (addChartContext (applyMap PUBLISHER_FUNCTION_MAP (pyLower raw))).fieldsOf) := by
  have hurls := findUrls_nil_of_publisher_key h
  have hstrip : pyStrip (pyLower raw) = pyLower raw := pyStrip_publisher_key h
  simp only [handle_publisher_query, hurls, ne_eq, not_true_eq_false, if_false, hstrip]
  rw [if_pos h]
  rfl

/-- C1 (amended).  For every input text that, after lower-casing, equals a
metric-catalog key, each query router dispatches directly to that key's handler
and returns that handler's output decorated with the fixed `chat_response` and
`timestamp` fields (the publisher router additionally wraps it with `type` and
`query` fields), and the embedding path is never invoked: the answer is
independent of the similarity oracle (and of the website-analysis oracle). -/
theorem exact_match_routing_behavior :
    (∀ (sims sims' : String → List ℚ) (q : String),
        pyLower q ∈ advertiser_metric_keys →
          handle_advertiser_query sims q
              = addChartContext (applyMap ADVERTISER_FUNCTION_MAP (pyLower q)) ∧
            handle_advertiser_query sims q = handle_advertiser_query sims' q) ∧
    (∀ (sims sims' : String → List ℚ) (az az' : String → Except String Json) (q : String),
        pyLower q ∈ publisher_metric_keys →
          handle_publisher_query sims az q
              = .obj (("type", .str "publisher_metric") :: ("query", .str q) ::
                  (addChartContext (applyMap PUBLISHER_FUNCTION_MAP (pyLower q))).fieldsOf) ∧
            handle_publisher_query sims az q = handle_publisher_query sims' az' q) := by
  constructor
  · intro sims sims' q h
    exact ⟨handle_advertiser_query_exact sims h,
      (handle_advertiser_query_exact sims h).trans
        (handle_advertiser_query_exact sims' h).symm⟩
  · intro sims sims' az az' q h
    exact ⟨handle_publisher_query_exact sims az h,
      (handle_publisher_query_exact sims az h).trans
        (handle_publisher_query_exact sims' az' h).symm⟩

/-- Witness for C1: the concrete queries "CPC" (advertiser) and " IMPRESSIONS "
do satisfy the catalog-key hypotheses, and the theorem evaluates on them. -/
theorem exact_match_routing_witness :
    (pyLower "CPC" ∈ advertiser_metric_keys ∧
      handle_advertiser_query (fun _ => []) "CPC"
        = addChartContext (applyMap ADVERTISER_FUNCTION_MAP (pyLower "CPC"))) ∧
    (pyLower "Impressions" ∈ publisher_metric_keys ∧
      handle_publisher_query (fun _ => []) (fun _ => .error "down") "Impressions"
        = .obj (("type", .str "publisher_metric") :: ("query", .str "Impressions") ::
            (addChartContext (applyMap PUBLISHER_FUNCTION_MAP (pyLower "Impressions"))).fieldsOf)) :=
  ⟨⟨by decide,
    (exact_match_routing_behavior.1 (fun _ => []) (fun _ => [1]) "CPC" (by decide)).1⟩,
   ⟨by decide,
    (exact_match_routing_behavior.2 (fun _ => []) (fun _ => [1]) (fun _ => .error "down")
      (fun _ => .ok .null) "Impressions" (by decide)).1⟩⟩

/-- Counterexample for C1 as stated: the advertiser router's answer to the
exact query "cpc" is not the `get_cpc` payload verbatim — the router adds the
`chat_response` and `timestamp` fields (their key sets already differ). -/
theorem exact_match_routing_not_verbatim :
    handle_advertiser_query (fun _ => []) "cpc" ≠ Advertiser.get_cpc () := by
  intro h
  exact absurd (congrArg Json.keys h) (by decide)

/-! ### Claim C2: semantic-match routing -/

/-- Specification of `argmaxIdx`: on a nonempty list it returns a valid index
of a maximal element, and every earlier element is strictly smaller (the
first-occurrence tie-break of `torch.argmax`). -/
theorem argmaxIdx_spec : ∀ (l : List ℚ), l ≠ [] →
    argmaxIdx l < l.length ∧
    (∀ j < l.length, l.getD j 0 ≤ l.getD (argmaxIdx l) 0) ∧
    (∀ j < argmaxIdx l, l.getD j 0 < l.getD (argmaxIdx l) 0) := by
  intro l
  induction l with
  | nil => intro h; exact absurd rfl h
  | cons x xs ih =>
    intro _
    cases xs with
    | nil =>
      refine ⟨by simp [argmaxIdx], ?_, by simp [argmaxIdx]⟩
      intro j hj
      have : j = 0 := Nat.lt_one_iff.mp (by simpa using hj)
      subst this
      simp [argmaxIdx]
    | cons y ys =>
      obtain ⟨ht1, ht2, ht3⟩ := ih (by simp)
      have heq : argmaxIdx (x :: y :: ys)
          = if (y :: ys).getD (argmaxIdx (y :: ys)) 0 > x
            then argmaxIdx (y :: ys) + 1 else 0 := rfl
      by_cases hgt : (y :: ys).getD (argmaxIdx (y :: ys)) 0 > x
      · rw [heq, if_pos hgt]
        refine ⟨by simpa using Nat.succ_lt_succ ht1, ?_, ?_⟩
        · intro j hj
          cases j with
          | zero => simpa using le_of_lt hgt
          | succ k =>
            simp only [List.getD_cons_succ]
            exact ht2 k (by simpa using Nat.lt_of_succ_lt_succ hj)
        · intro j hj
          cases j with
          | zero => simpa using hgt
          | succ k =>
            simp only [List.getD_cons_succ]
            exact ht3 k (Nat.lt_of_succ_lt_succ hj)
      · rw [heq, if_neg hgt]
        refine ⟨by simp, ?_, by simp⟩
        intro j hj
        cases j with
        | zero => simp
        | succ k =>
          simp only [List.getD_cons_succ, List.getD_cons_zero]
          exact le_trans (ht2 k (by simpa using Nat.lt_of_succ_lt_succ hj)) (not_lt.mp hgt)

/-- Semantic branch of the advertiser router: no exact key match and maximal
similarity at least 0.3 dispatches to the argmax entry, decorated. -/
theorem handle_advertiser_query_semantic (sims : String → List ℚ) {raw : String}
    (hnk : pyLower raw ∉ advertiser_metric_keys)
    (hth : mkRat 3 10 ≤ (sims (pyLower raw)).getD (argmaxIdx (sims (pyLower raw))) 0) :
    handle_advertiser_query sims raw
      = addChartContext (applyMap ADVERTISER_FUNCTION_MAP
          (advertiser_metric_keys.getD (argmaxIdx (sims (pyLower raw))) "")) := by
  simp only [handle_advertiser_query]
  rw [if_neg hnk, if_neg (not_lt.mpr hth)]

/-- Semantic branch of the publisher router (no URL in the raw query, no exact
key match, maximal similarity at least 0.3). -/
theorem handle_publisher_query_semantic (sims : String → List ℚ)
    (az : String → Except String Json) {raw : String}
    (hurl : findUrls raw = [])
    (hnk : pyStrip (pyLower raw) ∉ publisher_metric_keys)
    (hth : mkRat 3 10 ≤
      (sims (pyStrip (pyLower raw))).getD (argmaxIdx (sims (pyStrip (pyLower raw)))) 0) :
    handle_publisher_query sims az raw
      = .obj (("type", .str "publisher_metric") :: ("query", .str raw) ::
          ("matched_metric",
            .str (publisher_metric_keys.getD (argmaxIdx (sims (pyStrip (pyLower raw)))) "")) ::
          (addChartContext (applyMap PUBLISHER_FUNCTION_MAP
            (publisher_metric_keys.getD (argmaxIdx (sims (pyStrip (pyLower raw)))) ""))).fieldsOf) := by
  simp only [handle_publisher_query, hurl, ne_eq, not_true_eq_false, if_false]
  rw [if_neg hnk, if_neg (not_lt.mpr hth)]
  simp

/-- C2 (amended).  For every input text that is not an exact catalog key and
whose similarity row contains a value at least 0.3, each router returns the
decorated payload (the publisher router wrapped with `type`/`query`/
`matched_metric`) of the catalog entry at the first index attaining the
maximum similarity — the earliest-inserted entry wins ties; for the publisher
router this holds provided the text contains no `http(s)://` URL, since
URL-bearing queries are diverted to website analysis before the similarity
search runs. -/
theorem semantic_match_routing :
    (∀ (sims : String → List ℚ) (q : String),
        pyLower q ∉ advertiser_metric_keys →
        (sims (pyLower q)).length = advertiser_metric_keys.length →
        (∃ j < (sims (pyLower q)).length, mkRat 3 10 ≤ (sims (pyLower q)).getD j 0) →
        argmaxIdx (sims (pyLower q)) < advertiser_metric_keys.length ∧
        (∀ j < (sims (pyLower q)).length,
            (sims (pyLower q)).getD j 0
              ≤ (sims (pyLower q)).getD (argmaxIdx (sims (pyLower q))) 0) ∧
        (∀ j < argmaxIdx (sims (pyLower q)),
            (sims (pyLower q)).getD j 0
              < (sims (pyLower q)).getD (argmaxIdx (sims (pyLower q))) 0) ∧
        handle_advertiser_query sims q
          = addChartContext (applyMap ADVERTISER_FUNCTION_MAP
              (advertiser_metric_keys.getD (argmaxIdx (sims (pyLower q))) ""))) ∧
    (∀ (sims : String → List ℚ) (az : String → Except String Json) (q : String),
        findUrls q = [] →
        pyStrip (pyLower q) ∉ publisher_metric_keys →
        (sims (pyStrip (pyLower q))).length = publisher_metric_keys.length →
        (∃ j < (sims (pyStrip (pyLower q))).length,
            mkRat 3 10 ≤ (sims (pyStrip (pyLower q))).getD j 0) →
        argmaxIdx (sims (pyStrip (pyLower q))) < publisher_metric_keys.length ∧
        (∀ j < (sims (pyStrip (pyLower q))).length,
            (sims (pyStrip (pyLower q))).getD j 0
              ≤ (sims (pyStrip (pyLower q))).getD (argmaxIdx (sims (pyStrip (pyLower q)))) 0) ∧
        (∀ j < argmaxIdx (sims (pyStrip (pyLower q))),
            (sims (pyStrip (pyLower q))).getD j 0
              < (sims (pyStrip (pyLower q))).getD (argmaxIdx (sims (pyStrip (pyLower q)))) 0) ∧
        handle_publisher_query sims az q
          = .obj (("type", .str "publisher_metric") :: ("query", .str q) ::
              ("matched_metric",
                .str (publisher_metric_keys.getD
                  (argmaxIdx (sims (pyStrip (pyLower q)))) "")) ::
              (addChartContext (applyMap PUBLISHER_FUNCTION_MAP
                (publisher_metric_keys.getD
                  (argmaxIdx (sims (pyStrip (pyLower q)))) ""))).fieldsOf)) := by
  constructor
  · intro sims q hnk hlen hex
    obtain ⟨j, hj, hge⟩ := hex
    have hne : sims (pyLower q) ≠ [] :=
      List.length_pos.mp (lt_of_le_of_lt (Nat.zero_le _) hj)
    obtain ⟨t1, t2, t3⟩ := argmaxIdx_spec _ hne
    have hth : mkRat 3 10 ≤
        (sims (pyLower q)).getD (argmaxIdx (sims (pyLower q))) 0 :=
      le_trans hge (t2 j hj)
    exact ⟨hlen ▸ t1, t2, t3, handle_advertiser_query_semantic sims hnk hth⟩
  · intro sims az q hurl hnk hlen hex
    obtain ⟨j, hj, hge⟩ := hex
    have hne : sims (pyStrip (pyLower q)) ≠ [] :=
      List.length_pos.mp (lt_of_le_of_lt (Nat.zero_le _) hj)
    obtain ⟨t1, t2, t3⟩ := argmaxIdx_spec _ hne
    have hth : mkRat 3 10 ≤
        (sims (pyStrip (pyLower q))).getD (argmaxIdx (sims (pyStrip (pyLower q)))) 0 :=
      le_trans hge (t2 j hj)
    exact ⟨hlen ▸ t1, t2, t3, handle_publisher_query_semantic sims az hurl hnk hth⟩

/-- Concrete similarity row used in the C2 witness: a tie of 0.5 between the
entries at indices 1 and 2 of the advertiser catalog. -/
def advWitnessSims : List ℚ := [0, mkRat 1 2, mkRat 1 2, 0, 0, 0, 0, 0]

/-- Concrete similarity row used in the C2 witness on the publisher side. -/
def pubWitnessSims : List ℚ := [0, 0, mkRat 2 5, 0, 0]

/-- Witness for C2: the spec's own example-style query routes to `clicks` on
the advertiser side (the earlier of the two tied entries), and an
earnings-like query routes to `revenue` on the publisher side. -/
theorem semantic_match_routing_witness :
    (argmaxIdx advWitnessSims = 1 ∧
      advertiser_metric_keys.getD (argmaxIdx advWitnessSims) "" = "clicks" ∧
      handle_advertiser_query (fun _ => advWitnessSims) "how many people clicked my ad"
        = addChartContext (applyMap ADVERTISER_FUNCTION_MAP
            (advertiser_metric_keys.getD (argmaxIdx advWitnessSims) ""))) ∧
    (argmaxIdx pubWitnessSims = 2 ∧
      publisher_metric_keys.getD (argmaxIdx pubWitnessSims) "" = "revenue" ∧
      handle_publisher_query (fun _ => pubWitnessSims) (fun _ => .ok .null)
          "money earned from my sites"
        = .obj (("type", .str "publisher_metric") ::
            ("query", .str "money earned from my sites") ::
            ("matched_metric",
              .str (publisher_metric_keys.getD (argmaxIdx pubWitnessSims) "")) ::
            (addChartContext (applyMap PUBLISHER_FUNCTION_MAP
              (publisher_metric_keys.getD (argmaxIdx pubWitnessSims) ""))).fieldsOf)) :=
  ⟨⟨by decide, by decide,
    (semantic_match_routing.1 (fun _ => advWitnessSims) "how many people clicked my ad"
      (by decide) (by decide) ⟨1, by decide, by decide⟩).2.2.2⟩,
   ⟨by decide, by decide,
    (semantic_match_routing.2 (fun _ => pubWitnessSims) (fun _ => .ok .null)
      "money earned from my sites"
      (by decide) (by decide) (by decide) ⟨2, by decide, by decide⟩).2.2.2⟩⟩

/-- Counterexample for C2 as stated: with a similarity row whose maximum 1 sits
at the `impressions` entry, the advertiser router's answer to "zzz" is not that
entry's payload (decoration is added); and a publisher query that carries a URL
is diverted to website analysis even though its maximum similarity is 1 at the
`revenue` entry, so it does not return that entry's payload in any form. -/
theorem semantic_match_routing_counterexample :
    (pyLower "zzz" ∉ advertiser_metric_keys ∧
      handle_advertiser_query (fun _ => [1, 0, 0, 0, 0, 0, 0, 0]) "zzz"
        ≠ Advertiser.get_impressions ()) ∧
    (pyStrip (pyLower "revenue news https://x.com") ∉ publisher_metric_keys ∧
      Json.keys (handle_publisher_query (fun _ => [0, 0, 1, 0, 0]) (fun _ => .ok .null)
          "revenue news https://x.com")
        = ["type", "query", "url", "analysis"]) := by
  refine ⟨⟨by decide, ?_⟩, ⟨by decide, by rfl⟩⟩
  intro h
  exact absurd (congrArg Json.keys h) (by decide)

/-! ### Claim C3: below-threshold no-match behaviour -/

/-- Metric names as printed in the advertiser no-match message. -/
def advertiserNoMatchNames : List String :=
  ["impressions", "clicks", "conversions", "CPC", "CPM", "CPA", "spend", "ROI"]

/-- Metric names as printed in the publisher no-match message. -/
def publisherNoMatchNames : List String :=
  ["impressions", "clicks", "revenue", "RPM", "geography"]

/-- No-match branch of the advertiser router. -/
theorem handle_advertiser_query_nomatch (sims : String → List ℚ) {raw : String}
    (hnk : pyLower raw ∉ advertiser_metric_keys)
    (hth : (sims (pyLower raw)).getD (argmaxIdx (sims (pyLower raw))) 0 < mkRat 3 10) :
    handle_advertiser_query sims raw = .obj [("error", .str advertiserNoMatchMsg)] := by
  simp only [handle_advertiser_query]
  rw [if_neg hnk, if_pos hth]

/-- No-match branch of the publisher router (URL-free query). -/
theorem handle_publisher_query_nomatch (sims : String → List ℚ)
    (az : String → Except String Json) {raw : String}
    (hurl : findUrls raw = [])
    (hnk : pyStrip (pyLower raw) ∉ publisher_metric_keys)
    (hth : (sims (pyStrip (pyLower raw))).getD
        (argmaxIdx (sims (pyStrip (pyLower raw)))) 0 < mkRat 3 10) :
    handle_publisher_query sims az raw = .obj [("error", .str publisherNoMatchMsg)] := by
  simp only [handle_publisher_query, hurl, ne_eq, not_true_eq_false, if_false]
  rw [if_neg hnk, if_pos hth]

/-- C3 (amended).  For every input text that is not an exact catalog key and
whose similarity row lies entirely below 0.3, each router invokes no metric
handler and returns the fixed no-match error; the metric names listed in that
error are exactly the catalog's keys (up to the upper-casing of the acronyms
as printed).  For the publisher router this holds provided the text contains
no `http(s)://` URL — URL-bearing queries go to website analysis instead. -/
theorem no_match_threshold_behavior :
    (∀ (sims : String → List ℚ) (q : String),
        pyLower q ∉ advertiser_metric_keys →
        (sims (pyLower q)).length = advertiser_metric_keys.length →
        (∀ j < (sims (pyLower q)).length, (sims (pyLower q)).getD j 0 < mkRat 3 10) →
        handle_advertiser_query sims q = .obj [("error", .str advertiserNoMatchMsg)]) ∧
    (∀ (sims : String → List ℚ) (az : String → Except String Json) (q : String),
        findUrls q = [] →
        pyStrip (pyLower q) ∉ publisher_metric_keys →
        (sims (pyStrip (pyLower q))).length = publisher_metric_keys.length →
        (∀ j < (sims (pyStrip (pyLower q))).length,
            (sims (pyStrip (pyLower q))).getD j 0 < mkRat 3 10) →
        handle_publisher_query sims az q = .obj [("error", .str publisherNoMatchMsg)]) ∧
    advertiserNoMatchNames.map pyLower = advertiser_metric_keys ∧
    publisherNoMatchNames.map pyLower = publisher_metric_keys ∧
    advertiserNoMatchMsg
      = "No matching advertiser metric found. Try asking about "
          ++ String.intercalate ", " (advertiserNoMatchNames.take 7)
          ++ ", or " ++ advertiserNoMatchNames.getD 7 "" ++ "." ∧
    publisherNoMatchMsg
      = "No matching publisher metric found. Try asking about "
          ++ String.intercalate ", " publisherNoMatchNames
          ++ ", or provide a website URL to analyze." := by
  refine ⟨?_, ?_, by decide, by decide, by decide, by decide⟩
  · intro sims q hnk hlen hall
    have hne : sims (pyLower q) ≠ [] := by
      rw [← List.length_pos, hlen]; decide
    obtain ⟨t1, _, _⟩ := argmaxIdx_spec _ hne
    exact handle_advertiser_query_nomatch sims hnk (hall _ (hlen ▸ t1))
  · intro sims az q hurl hnk hlen hall
    have hne : sims (pyStrip (pyLower q)) ≠ [] := by
      rw [← List.length_pos, hlen]; decide
    obtain ⟨t1, _, _⟩ := argmaxIdx_spec _ hne
    exact handle_publisher_query_nomatch sims az hurl hnk (hall _ (hlen ▸ t1))

/-- Witness for C3: the spec's own garbage query "asdkjashdkjhasd" with an
all-zero similarity row produces the no-match error on both routers. -/
theorem no_match_threshold_witness :
    (pyLower "asdkjashdkjhasd" ∉ advertiser_metric_keys ∧
      handle_advertiser_query (fun _ => [0, 0, 0, 0, 0, 0, 0, 0]) "asdkjashdkjhasd"
        = .obj [("error", .str advertiserNoMatchMsg)]) ∧
    (pyStrip (pyLower "asdkjashdkjhasd") ∉ publisher_metric_keys ∧
      handle_publisher_query (fun _ => [0, 0, 0, 0, 0]) (fun _ => .ok .null)
          "asdkjashdkjhasd"
        = .obj [("error", .str publisherNoMatchMsg)]) :=
  ⟨⟨by decide,
    no_match_threshold_behavior.1 (fun _ => [0, 0, 0, 0, 0, 0, 0, 0]) "asdkjashdkjhasd"
      (by decide) (by decide) (by decide)⟩,
   ⟨by decide,
    no_match_threshold_behavior.2.1 (fun _ => [0, 0, 0, 0, 0]) (fun _ => .ok .null)
      "asdkjashdkjhasd" (by decide) (by decide) (by decide) (by decide)⟩⟩

/-- Counterexample for C3 as stated: a below-threshold publisher query that
carries a URL is answered by the website-analysis branch, not by the no-match
error, even though it is no catalog key and all similarities are below 0.3. -/
theorem no_match_threshold_counterexample :
    pyStrip (pyLower "asdkjashdkjhasd https://x.com") ∉ publisher_metric_keys ∧
    (∀ j < 5, ([0, 0, 0, 0, (0 : ℚ)]).getD j 0 < mkRat 3 10) ∧
    handle_publisher_query (fun _ => [0, 0, 0, 0, 0]) (fun _ => .ok .null)
        "asdkjashdkjhasd https://x.com"
      ≠ .obj [("error", .str publisherNoMatchMsg)] := by
  refine ⟨by decide, by decide, ?_⟩
  intro h
  exact absurd (congrArg Json.keys h) (by decide)

/-! ### Model of publisher.py `extract_metrics` (Claim C10) -/

/-- The ASCII single-quote character, written via its code point. -/
def squote : Char := Char.ofNat 39

/-- Case-insensitive character comparison (regex `re.IGNORECASE`, ASCII). -/
def charCI (a b : Char) : Bool := a.toLower = b.toLower

/-- Case-insensitive list-prefix test. -/
def startsWithCI : List Char → List Char → Bool
  | [], _ => true
  | _ :: _, [] => false
  | p :: ps, c :: cs => charCI p c && startsWithCI ps cs

/-- Scanner for `re.sub(r'<[^>]+>', '', html)`: at each `<`, a match needs at
least one non-`>` character followed by `>`; matched spans are deleted and the
scan resumes after the closing `>`, otherwise the character is kept. -/
def reSubTags : Nat → List Char → List Char
  | 0, cs => cs
  | _ + 1, [] => []
  | fuel + 1, c :: rest =>
    if c = '<' then
      let pre := rest.takeWhile (fun ch => ch ≠ '>')
      if pre.length ≥ 1 && pre.length < rest.length then
        reSubTags fuel (rest.drop (pre.length + 1))
      else
        c :: reSubTags fuel rest
    else
      c :: reSubTags fuel rest

/-- Token count of Python `str.split()`: number of maximal non-whitespace runs. -/
def countTokens : Nat → List Char → Nat
  | 0, _ => 0
  | _ + 1, [] => 0
  | fuel + 1, c :: rest =>
    if pyIsSpace c then countTokens fuel rest
    else 1 + countTokens fuel ((c :: rest).dropWhile (fun ch => !pyIsSpace ch))

/-- Non-overlapping case-insensitive count of a literal pattern,
`len(re.findall(pat, s, re.IGNORECASE))` for a pattern without
metacharacters. -/
def countCI : Nat → List Char → List Char → Nat
  | 0, _, _ => 0
  | _ + 1, _, [] => 0
  | fuel + 1, p, c :: rest =>
    if startsWithCI p (c :: rest) then
      1 + countCI fuel p ((c :: rest).drop p.length)
    else
      countCI fuel p rest

/-- Regex word characters `\w` over ASCII. -/
def isWordChar (c : Char) : Bool := c.isAlpha || c.isDigit || c = '_'

/-- Non-overlapping case-insensitive count of `\b pat \b` for a literal word
pattern: `len(re.findall(rf'\b{kw}\b', s, re.IGNORECASE))`.  `prev` is the
character before the current position (`none` at the start of the string). -/
def countWordCI : Nat → List Char → Option Char → List Char → Nat
  | 0, _, _, _ => 0
  | _ + 1, _, _, [] => 0
  | fuel + 1, p, prev, c :: rest =>
    let boundaryL := match prev with
      | none => true
      | some pc => !isWordChar pc
    let tail := (c :: rest).drop p.length
    let boundaryR := match tail with
      | [] => true
      | t :: _ => !isWordChar t
    if boundaryL && startsWithCI p (c :: rest) && boundaryR then
      1 + countWordCI fuel p (some ((c :: rest).getD (p.length - 1) c)) tail
    else
      countWordCI fuel p (some c) rest

/-- Maximal-munch `\s+`: requires at least one whitespace character and
consumes the whole run. -/
def dropWs1 : List Char → Option (List Char)
  | [] => none
  | c :: rest => if pyIsSpace c then some (rest.dropWhile pyIsSpace) else none

/-- One quote character of either kind, the regex class `["\']`. -/
def dropQuote : List Char → Option (List Char)
  | [] => none
  | c :: rest => if c = '"' || c = squote then some rest else none

/-- Lazy group `(.*?)` up to the first quote character: length of the shortest
prefix ending at a quote; `.` does not cross a newline. -/
def lazyToQuote : Nat → Nat → List Char → Option Nat
  | 0, _, _ => none
  | _ + 1, _, [] => none
  | fuel + 1, k, c :: rest =>
    if c = '"' || c = squote then some k
    else if c = '\n' then none
    else lazyToQuote fuel (k + 1) rest

/-- Attempted match of the meta-description pattern
`<meta\s+name=["\']description["\']\s+content=["\'](.*?)["\']` (IGNORECASE)
at the head of the list; returns the captured group's length. -/
def matchMetaAt (cs : List Char) : Option Nat :=
  if startsWithCI "<meta".data cs then
    match dropWs1 (cs.drop 5) with
    | none => none
    | some cs1 =>
      if startsWithCI "name=".data cs1 then
        match dropQuote (cs1.drop 5) with
        | none => none
        | some cs2 =>
          if startsWithCI "description".data cs2 then
            match dropQuote (cs2.drop 11) with
            | none => none
            | some cs3 =>
              match dropWs1 cs3 with
              | none => none
              | some cs4 =>
                if startsWithCI "content=".data cs4 then
                  match dropQuote (cs4.drop 8) with
                  | none => none
                  | some cs5 => lazyToQuote cs5.length 0 cs5
                else none
          else none
      else none
  else none

/-- Leftmost search for the meta-description pattern,
`re.search(..., html, re.IGNORECASE)`; the captured group's length. -/
def searchMeta : Nat → List Char → Option Nat
  | 0, _ => none
  | _ + 1, [] => none
  | fuel + 1, c :: rest =>
    match matchMetaAt (c :: rest) with
    | some k => some k
    | none => searchMeta fuel rest

/-- Lazy group of `<title>(.*?)</title>`: length of the shortest run of
non-newline characters up to a `</title>` (IGNORECASE). -/
def findCloseTitle : Nat → Nat → List Char → Option Nat
  | 0, _, _ => none
  | fuel + 1, k, cs =>
    if startsWithCI "</title>".data cs then some k
    else
      match cs with
      | [] => none
      | c :: rest => if c = '\n' then none else findCloseTitle fuel (k + 1) rest

/-- Leftmost search for `re.search(r'<title>(.*?)</title>', html,
re.IGNORECASE)`; the captured group's length. -/
def searchTitle : Nat → List Char → Option Nat
  | 0, _ => none
  | _ + 1, [] => none
  | fuel + 1, c :: rest =>
    if startsWithCI "<title>".data (c :: rest) then
      match findCloseTitle ((c :: rest).length + 1) 0 ((c :: rest).drop 7) with
      | some k => some k
      | none => searchTitle fuel rest
    else searchTitle fuel rest

/-- Match of `tag\s+attr` (IGNORECASE) at the head, e.g. `<a\s+href=`;
returns the suffix after the match. -/
def matchTagAttr (tag attr cs : List Char) : Option (List Char) :=
  if startsWithCI tag cs then
    match dropWs1 (cs.drop tag.length) with
    | some cs1 => if startsWithCI attr cs1 then some (cs1.drop attr.length) else none
    | none => none
  else none

/-- Non-overlapping count of `tag\s+attr` matches,
`len(re.findall(r'<a\s+href=', html, re.IGNORECASE))` and the `<img\s+src=`
analogue. -/
def countTagAttr : Nat → List Char → List Char → List Char → Nat
  | 0, _, _, _ => 0
  | _ + 1, _, _, [] => 0
  | fuel + 1, tag, attr, c :: rest =>
    match matchTagAttr tag attr (c :: rest) with
    | some suffix => 1 + countTagAttr fuel tag attr suffix
    | none => countTagAttr fuel tag attr rest

/-- Python `round(x, 2)` on the exact rational value: round half to even at
two decimals (CPython's binary-float representation detail is abstracted). -/
def pyRound2 (q : ℚ) : ℚ :=
  let scaled := q * 100
  let fl := scaled.floor
  let frac := scaled - (fl : ℚ)
  let r : ℤ :=
    if frac > mkRat 1 2 then fl + 1
    else if frac < mkRat 1 2 then fl
    else if fl % 2 = 0 then fl else fl + 1
  (r : ℚ) / 100

/-- Word count of `extract_metrics`: tags stripped by `re.sub(r'<[^>]+>', '')`,
then `len(text_content.split())`. -/
def extract_word_count (html : String) : Nat :=
  let t := reSubTags html.data.length html.data
  countTokens t.length t

/-- Ad-indicator count of `extract_metrics`: the summed non-overlapping
IGNORECASE occurrence counts of `ad`, `advert`, `banner`, `sponsored`. -/
def extract_ad_count (html : String) : Nat :=
  countCI html.data.length "ad".data html.data
    + countCI html.data.length "advert".data html.data
    + countCI html.data.length "banner".data html.data
    + countCI html.data.length "sponsored".data html.data

/-- Model of publisher.py `extract_metrics` (lines 484-534), body of the
`try` block.  The `url` argument is only used by the Python code for logging
in the `except` branch. -/
def extract_metrics (html url : String) : Json :=
  let cs := html.data
  let text_content := reSubTags cs.length cs
  let word_count := extract_word_count html
  let keyword_freq := Json.obj [
    ("tech", .num (countWordCI text_content.length "tech".data none text_content)),
    ("AI", .num (countWordCI text_content.length "AI".data none text_content)),
    ("startup", .num (countWordCI text_content.length "startup".data none text_content)),
    ("news", .num (countWordCI text_content.length "news".data none text_content))]
  let ad_count := extract_ad_count html
  let ad_density := min (((ad_count : ℚ) / (max cs.length 1 : ℚ)) * 100) 100
  let title_length := (searchTitle cs.length cs).getD 0
  let meta_desc_length := (searchMeta cs.length cs).getD 0
  let link_count := countTagAttr cs.length "<a".data "href=".data cs
  let image_count := countTagAttr cs.length "<img".data "src=".data cs
  let impressions : Nat := if word_count > 500 then 1000000 else 500000
  let ctr : ℚ := if ad_count > 0 then 1 else mkRat 1 2
  let revenue := (impressions : ℚ) * (ctr / 100) * mkRat 5 1000
  .obj [
    ("word_count", .num word_count),
    ("keyword_freq", keyword_freq),
    ("ad_density", .num (pyRound2 ad_density)),
    ("ad_count", .num ad_count),
    ("title_length", .num title_length),
    ("meta_desc_length", .num meta_desc_length),
    ("link_count", .num link_count),
    ("image_count", .num image_count),
    ("impressions", .num impressions),
    ("ctr", .num ctr),
    ("revenue", .num (pyRound2 revenue)),
    ("rpm", .num (pyRound2 (revenue / ((impressions : ℚ) / 1000)))),
    ("geography", .obj [("US", .num 70), ("International", .num 30)]),
    ("device", .obj [("Mobile", .num 50), ("Desktop", .num 50)])]

/-- Guard of `extract_metrics`'s `try`/`except`: the Python function returns
the body's record when the body completes, and `{}` when it raises. -/
def extract_metrics_guarded (bodyResult : Option Json) : Json :=
  match bodyResult with
  | some j => j
  | none => .obj []

/-- C10.  For every HTML string and URL, `extract_metrics` is total (the
embedded body cannot raise) and returns an object carrying exactly the 14
metric fields in source order; `impressions` is 1000000 when the word count
exceeds 500 and 500000 otherwise, and `ctr` is 1.0 when the ad count is
positive and 0.5 otherwise.  The `try`/`except` guard returns the body's
record on completion and the empty dictionary on an internal exception. -/
theorem extract_metrics_total_shape :
    (∀ html url : String,
        (extract_metrics html url).isObj = true ∧
        (extract_metrics html url).keys
          = ["word_count", "keyword_freq", "ad_density", "ad_count", "title_length",
             "meta_desc_length", "link_count", "image_count", "impressions", "ctr",
             "revenue", "rpm", "geography", "device"] ∧
        (extract_metrics html url).getField "impressions"
          = some (.num ((if extract_word_count html > 500 then 1000000 else 500000 : ℕ) : ℚ)) ∧
        (extract_metrics html url).getField "ctr"
          = some (.num (if extract_ad_count html > 0 then 1 else mkRat 1 2))) ∧
    extract_metrics_guarded none = .obj [] ∧
    (∀ j : Json, extract_metrics_guarded (some j) = j) := by
  refine ⟨fun html url => ⟨rfl, rfl, rfl, rfl⟩, rfl, fun j => rfl⟩

/-! ### Claim C4: multi-site comparison robustness -/

/-- Placeholder entry appended by `competitive_analysis_multiple` when a
competitor's fetch/analysis raises (publisher.py 710-725). -/
def failedCompetitorEntry (comp_url msg : String) : Json := .obj [
  ("url", .str comp_url),
  ("error", .str ("Analysis failed: " ++ msg)),
  ("word_count", .num 0),
  ("ad_count", .num 0),
  ("impressions", .num 0),
  ("ctr", .num 0),
  ("revenue", .num 0),
  ("rpm", .num 0),
  ("link_count", .num 0),
  ("image_count", .num 0),
  ("geography", .obj [("US", .num 0), ("International", .num 0)]),
  ("device", .obj [("Mobile", .num 0), ("Desktop", .num 0)])]

/-- One iteration of the competitor loop of `competitive_analysis_multiple`
(publisher.py 693-725).  `fetchSan` models the network-bound
fetch-plus-`sanitize_html` step, returning sanitized HTML or the text of the
raised exception; on success `extract_metrics` runs and the original URL is
written into the record, on failure the placeholder is appended. -/
def competitorEntry (fetchSan : String → Except String String) (comp_url : String) : Json :=
  match fetchSan comp_url with
  | .ok html => (extract_metrics html comp_url).setField "url" (.str comp_url)
  | .error msg => failedCompetitorEntry comp_url msg

/-- The competitors array built by `competitive_analysis_multiple`: one entry
per requested competitor URL, in request order. -/
def competitorsArray (fetchSan : String → Except String String)
    (competitor_urls : List String) : List Json :=
  competitor_urls.map (competitorEntry fetchSan)

mutual

/-- Check that every numeric leaf of a document is zero (string fields and
colors are ignored), recursively through nested objects and arrays. -/
def allNumZero : Json → Bool
  | .num q => q = 0
  | .obj fs => allNumZeroObj fs
  | .arr xs => allNumZeroArr xs
  | _ => true

/-- Object part of `allNumZero`. -/
def allNumZeroObj : List (String × Json) → Bool
  | [] => true
  | (_, v) :: rest => allNumZero v && allNumZeroObj rest

/-- Array part of `allNumZero`. -/
def allNumZeroArr : List Json → Bool
  | [] => true
  | v :: rest => allNumZero v && allNumZeroArr rest

end

/-- C4.  The competitors array of the multi-site comparison endpoint always
has exactly one entry per requested competitor URL, in request order; a
competitor whose fetch/analysis raises contributes the placeholder entry,
which carries the original URL, an `error` string, and only zero numeric
values — the failure never aborts the whole comparison. -/
theorem multi_competitor_robustness :
    (∀ (fetchSan : String → Except String String) (urls : List String),
        (competitorsArray fetchSan urls).length = urls.length) ∧
    (∀ (fetchSan : String → Except String String) (urls : List String) (i : Nat),
        i < urls.length →
        (competitorsArray fetchSan urls).getD i .null
          = competitorEntry fetchSan (urls.getD i "")) ∧
    (∀ (fetchSan : String → Except String String) (u msg : String),
        fetchSan u = .error msg →
        competitorEntry fetchSan u = failedCompetitorEntry u msg ∧
        (failedCompetitorEntry u msg).getField "url" = some (.str u) ∧
        (failedCompetitorEntry u msg).getField "error"
          = some (.str ("Analysis failed: " ++ msg)) ∧
        ∀ p ∈ (failedCompetitorEntry u msg).fieldsOf, allNumZero p.2 = true) := by
  refine ⟨fun fetchSan urls => List.length_map urls _, ?_, ?_⟩
  · intro fetchSan urls i hi
    have h1 : urls[i]? = some (urls.get ⟨i, hi⟩) := List.getElem?_eq_getElem hi
    simp [competitorsArray, List.getD, List.getElem?_map, h1]
  · intro fetchSan u msg hfe
    refine ⟨by simp [competitorEntry, hfe], rfl, rfl, ?_⟩
    intro p hp
    simp only [failedCompetitorEntry, Json.fieldsOf, List.mem_cons,
      List.not_mem_nil, or_false] at hp
    rcases hp with rfl | rfl | rfl | rfl | rfl | rfl | rfl | rfl | rfl | rfl | rfl | rfl <;> rfl

/-- Witness for C4: with an always-failing fetch, two requested competitors
still yield two entries, and each is the fully zeroed, error-marked
placeholder for its URL. -/
theorem multi_competitor_robustness_witness :
    (competitorsArray (fun _ => .error "connection timed out")
        ["https://a.example", "https://b.example"]).length = 2 ∧
    competitorEntry (fun _ => .error "connection timed out") "https://a.example"
      = failedCompetitorEntry "https://a.example" "connection timed out" ∧
    (failedCompetitorEntry "https://a.example" "connection timed out").getField "error"
      = some (.str ("Analysis failed: " ++ "connection timed out")) :=
  ⟨multi_competitor_robustness.1 (fun _ => .error "connection timed out")
      ["https://a.example", "https://b.example"],
   (multi_competitor_robustness.2.2 (fun _ => .error "connection timed out")
      "https://a.example" "connection timed out" rfl).1,
   (multi_competitor_robustness.2.2 (fun _ => .error "connection timed out")
      "https://a.example" "connection timed out" rfl).2.2.1⟩

/-! ### Claim C5: static endpoint idempotence -/

/-- C5.  Every static metric endpoint is a zero-argument producer of a fixed
payload built from literals only — the handlers close over no mutable state in
the source — so any two invocations return identical documents.  Stated for
the two endpoints the spec names and for every handler reachable through
either dispatch table. -/
theorem static_endpoint_idempotence :
    (∀ u v : Unit, Advertiser.get_cpc u = Advertiser.get_cpc v) ∧
    (∀ u v : Unit, Publisher.get_impressions u = Publisher.get_impressions v) ∧
    (∀ (k : String) (f : Unit → Json), (k, f) ∈ ADVERTISER_FUNCTION_MAP →
        ∀ u v : Unit, f u = f v) ∧
    (∀ (k : String) (f : Unit → Json), (k, f) ∈ PUBLISHER_FUNCTION_MAP →
        ∀ u v : Unit, f u = f v) := by
  refine ⟨fun u v => rfl, fun u v => rfl, ?_, ?_⟩
  · intro k f h
    fin_cases h <;> exact fun u v => rfl
  · intro k f h
    fin_cases h <;> exact fun u v => rfl

/-- Witness for C5 at the spec's named endpoints: `/cpc` (advertiser) and
`/impressions` (publisher), looked up through their dispatch tables. -/
theorem static_endpoint_idempotence_witness :
    Advertiser.get_cpc () = Advertiser.get_cpc () ∧
    Publisher.get_impressions () = Publisher.get_impressions () ∧
    ("cpc", Advertiser.get_cpc) ∈ ADVERTISER_FUNCTION_MAP ∧
    Advertiser.get_cpc () = Advertiser.get_cpc () :=
  ⟨static_endpoint_idempotence.1 () (),
   static_endpoint_idempotence.2.1 () (),
   by simp [ADVERTISER_FUNCTION_MAP],
   static_endpoint_idempotence.2.2.1 "cpc" Advertiser.get_cpc
     (by simp [ADVERTISER_FUNCTION_MAP]) () ()⟩

/-! ### Claim C7: keyword enrichment fan-out (`backend/keywordanalysis.py`) -/

/-- One keyword record flowing through the enrichment pipeline (the dict
entries produced by `discover_keywords`, which always carry `keyword`,
`category` and `rationale`). -/
structure KeywordRec where
  keyword : String
  category : String
  rationale : String
  description : String := ""
  source : String := ""
deriving Repr, DecidableEq, Inhabited

/-- Outcome of one `exa_client.search_and_contents` call for a keyword:
a raised exception, an empty result list, or a top result with its optional
text and URL. -/
inductive ExaOutcome where
  | failure (msg : String)
  | noResults
  | found (text : Option String) (url : String)

/-- Per-keyword body `search_for_single_keyword` of
`enrich_keywords_with_sources` (keywordanalysis.py 132-155): a found result
sets the truncated description (`text[:250] + '...'`, falsy text giving the
fixed no-content string) and the source URL; an empty result list and an
exception set the corresponding fixed strings with source `N/A`. -/
def search_for_single_keyword (lookup : String → ExaOutcome)
    (kd : KeywordRec) : KeywordRec :=
  match lookup kd.keyword with
  | .found text url =>
      { kd with
        description :=
          match text with
          | some t => if t ≠ "" then pyTake 250 t ++ "..." else "No text content found."
          | none => "No text content found."
        source := url }
  | .noResults => { kd with description := "No description found.", source := "N/A" }
  | .failure _ =>
      { kd with description := "Failed to fetch description.", source := "N/A" }

/-- The fixed ThreadPoolExecutor pool size of `enrich_keywords_with_sources`
(`max_workers=5`). -/
def enrich_max_workers : Nat := 5

/-- Model of `enrich_keywords_with_sources` (keywordanalysis.py 127-162):
`executor.map` over the worker pool returns the image of the input list in
input order once all lookups complete. -/
def enrich_keywords_with_sources (lookup : String → ExaOutcome)
    (keywords_list : List KeywordRec) : List KeywordRec :=
  keywords_list.map (search_for_single_keyword lookup)

/-- C7.  Keyword enrichment uses a fixed pool of 5 workers and returns exactly
one enriched record per input keyword, in input order; each output entry is a
function of its own input entry alone (no short-circuiting), the keyword and
category fields are preserved, and a failed lookup marks only its own entry
with the fixed error description and source `N/A`. -/
theorem keyword_enrichment_behavior :
    enrich_max_workers = 5 ∧
    (∀ (lookup : String → ExaOutcome) (ks : List KeywordRec),
        (enrich_keywords_with_sources lookup ks).length = ks.length) ∧
    (∀ (lookup : String → ExaOutcome) (ks : List KeywordRec) (i : Nat),
        i < ks.length →
        (enrich_keywords_with_sources lookup ks).getD i default
          = search_for_single_keyword lookup (ks.getD i default)) ∧
    (∀ (lookup : String → ExaOutcome) (kd : KeywordRec),
        (search_for_single_keyword lookup kd).keyword = kd.keyword ∧
        (search_for_single_keyword lookup kd).category = kd.category ∧
        (search_for_single_keyword lookup kd).rationale = kd.rationale) ∧
    (∀ (lookup : String → ExaOutcome) (kd : KeywordRec) (msg : String),
        lookup kd.keyword = .failure msg →
        (search_for_single_keyword lookup kd).description = "Failed to fetch description." ∧
        (search_for_single_keyword lookup kd).source = "N/A") := by
  refine ⟨rfl, fun lookup ks => List.length_map ks _, ?_, ?_, ?_⟩
  · intro lookup ks i hi
    have h1 : ks[i]? = some (ks.get ⟨i, hi⟩) := List.getElem?_eq_getElem hi
    simp [enrich_keywords_with_sources, List.getD, List.getElem?_map, h1]
  · intro lookup kd
    unfold search_for_single_keyword
    cases lookup kd.keyword <;> exact ⟨rfl, rfl, rfl⟩
  · intro lookup kd msg h
    unfold search_for_single_keyword
    rw [h]
    exact ⟨rfl, rfl⟩

/-- Witness for C7: two keywords, the first lookup fails and the second
succeeds; the output keeps length and order, only the first entry carries the
error marking. -/
theorem keyword_enrichment_witness :
    (enrich_keywords_with_sources
        (fun k => if k = "cpc tools" then .failure "timeout"
                  else .found (some "What this keyword means in digital marketing")
                    "https://src.example")
        [{ keyword := "cpc tools", category := "high_intent", rationale := "r1" },
         { keyword := "ad metrics", category := "awareness", rationale := "r2" }]).length
      = 2 ∧
    (search_for_single_keyword
        (fun k => if k = "cpc tools" then .failure "timeout"
                  else .found (some "What this keyword means in digital marketing")
                    "https://src.example")
        { keyword := "cpc tools", category := "high_intent", rationale := "r1" }).description
      = "Failed to fetch description." ∧
    (search_for_single_keyword
        (fun k => if k = "cpc tools" then .failure "timeout"
                  else .found (some "What this keyword means in digital marketing")
                    "https://src.example")
        { keyword := "cpc tools", category := "high_intent", rationale := "r1" }).source
      = "N/A" :=
  ⟨keyword_enrichment_behavior.2.1 _
      [{ keyword := "cpc tools", category := "high_intent", rationale := "r1" },
       { keyword := "ad metrics", category := "awareness", rationale := "r2" }],
   (keyword_enrichment_behavior.2.2.2.2 _
      { keyword := "cpc tools", category := "high_intent", rationale := "r1" }
      "timeout" rfl).1,
   (keyword_enrichment_behavior.2.2.2.2 _
      { keyword := "cpc tools", category := "high_intent", rationale := "r1" }
      "timeout" rfl).2⟩

/-! ### Claim C8: missing credentials give 503 (`ragengine.py`,
`keywordanalysis.py`, `exa_agent.py`) -/

/-- An HTTPException as raised by the service guards. -/
structure HttpError where
  status : Nat
  detail : String
deriving Repr, DecidableEq

/-- The RAG engine's request-relevant state: the `is_initialized` flag set at
startup and never written by request handlers. -/
structure RAGEngineState where
  is_initialized : Bool
deriving Repr, DecidableEq

/-- Startup check of `RAGEngine._initialize_rag_components` (ragengine.py
36-60): a missing `PINECONE_API_KEY`, or both Google keys missing, leaves the
engine uninitialized; with keys present component setup may still fail
(`componentsOk`).  An empty environment value is falsy in Python and is
modelled as `none`. -/
def initialize_rag_components (pinecone_key google_key gemini_key : Option String)
    (componentsOk : Bool) : RAGEngineState :=
  if pinecone_key.isNone || (google_key <|> gemini_key).isNone then ⟨false⟩
  else ⟨componentsOk⟩

/-- Guarded entry of `RAGEngine.query_documents` (ragengine.py 129-137): the
503 guard runs before any retrieval; the retrieval-and-LLM pipeline is the
oracle `answer`.  The state is returned alongside to record that the handler
never writes it. -/
def rag_query_documents (s : RAGEngineState) (answer : String → Json)
    (question : String) : (Except HttpError Json) × RAGEngineState :=
  if !s.is_initialized then
    (.error ⟨503, "RAG Engine not initialized. Please check API keys and dependencies."⟩, s)
  else (.ok (answer question), s)

/-- The keyword-analysis service's request-relevant state. -/
structure KeywordAnalysisServiceState where
  is_initialized : Bool
deriving Repr, DecidableEq

/-- Startup check of `KeywordAnalysisService._initialize_services`
(keywordanalysis.py 61-82): `EXA_API_KEY` and (`GEMINI_API_KEY` or
`GOOGLE_API_KEY`) are both required. -/
def keyword_initialize_services (exa_api_key gemini_api_key google_api_key : Option String)
    (clientsOk : Bool) : KeywordAnalysisServiceState :=
  if exa_api_key.isNone || (gemini_api_key <|> google_api_key).isNone then ⟨false⟩
  else ⟨clientsOk⟩

/-- Entry of `generate_marketing_strategy` through `_check_service`
(keywordanalysis.py 84-90, 274-277): the 503 guard precedes all work; the
whole strategy pipeline is the oracle `run`. -/
def generate_marketing_strategy_guarded (s : KeywordAnalysisServiceState)
    (run : Unit → Json) : (Except HttpError Json) × KeywordAnalysisServiceState :=
  if !s.is_initialized then
    (.error ⟨503, "Keyword Analysis service not initialized. Please check API keys."⟩, s)
  else (.ok (run ()), s)

/-- The Exa agent's request-relevant state: whether the two clients were
constructed at startup. -/
structure ExaAgentState where
  exa_client : Bool
  gemini_model : Bool
deriving Repr, DecidableEq

/-- Entry of any Exa-backed endpoint through `_check_services` (exa_agent.py
59-70): a missing Exa client 503s first, then a missing Gemini model; the
search-and-summarize pipeline is the oracle `run`. -/
def exa_endpoint_guarded (s : ExaAgentState) (run : Unit → Json) :
    (Except HttpError Json) × ExaAgentState :=
  if !s.exa_client then
    (.error ⟨503, "Exa API not configured. Please set EXA_API_KEY environment variable."⟩, s)
  else if !s.gemini_model then
    (.error ⟨503, "Gemini API not configured. Please set GEMINI_API_KEY environment variable."⟩, s)
  else (.ok (run ()), s)

/-- C8.  A service whose required API credentials were missing at startup
never initializes, and every guarded endpoint of an uninitialized service
responds with the explicit 503 service-unavailable error without invoking the
operation and without changing the service state. -/
theorem missing_credentials_503 :
    (∀ (pk gk gmk : Option String) (ok : Bool),
        pk = none ∨ (gk <|> gmk) = none →
        (initialize_rag_components pk gk gmk ok).is_initialized = false) ∧
    (∀ (s : RAGEngineState) (answer : String → Json) (q : String),
        s.is_initialized = false →
        rag_query_documents s answer q
          = (.error ⟨503, "RAG Engine not initialized. Please check API keys and dependencies."⟩,
             s)) ∧
    (∀ (ek gk gok : Option String) (ok : Bool),
        ek = none ∨ (gk <|> gok) = none →
        (keyword_initialize_services ek gk gok ok).is_initialized = false) ∧
    (∀ (s : KeywordAnalysisServiceState) (run : Unit → Json),
        s.is_initialized = false →
        generate_marketing_strategy_guarded s run
          = (.error ⟨503, "Keyword Analysis service not initialized. Please check API keys."⟩,
             s)) ∧
    (∀ (s : ExaAgentState) (run : Unit → Json),
        s.exa_client = false →
        exa_endpoint_guarded s run
          = (.error ⟨503, "Exa API not configured. Please set EXA_API_KEY environment variable."⟩,
             s)) ∧
    (∀ (s : ExaAgentState) (run : Unit → Json),
        s.exa_client = true → s.gemini_model = false →
        exa_endpoint_guarded s run
          = (.error ⟨503, "Gemini API not configured. Please set GEMINI_API_KEY environment variable."⟩,
             s)) := by
  refine ⟨?_, ?_, ?_, ?_, ?_, ?_⟩
  · intro pk gk gmk ok h
    rcases h with h | h <;> simp [initialize_rag_components, h]
  · intro s answer q h
    simp [rag_query_documents, h]
  · intro ek gk gok ok h
    rcases h with h | h <;> simp [keyword_initialize_services, h]
  · intro s run h
    simp [generate_marketing_strategy_guarded, h]
  · intro s run h
    simp [exa_endpoint_guarded, h]
  · intro s run h1 h2
    simp [exa_endpoint_guarded, h1, h2]

/-- Witness for C8: with `PINECONE_API_KEY` missing the RAG engine does not
initialize and a query 503s with the state untouched; likewise for the other
two services at concrete uninitialized states. -/
theorem missing_credentials_503_witness :
    (initialize_rag_components none (some "g") none true).is_initialized = false ∧
    rag_query_documents ⟨false⟩ (fun _ => .null) "what is medianet"
      = (.error ⟨503, "RAG Engine not initialized. Please check API keys and dependencies."⟩,
         (⟨false⟩ : RAGEngineState)) ∧
    (keyword_initialize_services (some "e") none none true).is_initialized = false ∧
    generate_marketing_strategy_guarded ⟨false⟩ (fun _ => .null)
      = (.error ⟨503, "Keyword Analysis service not initialized. Please check API keys."⟩,
         (⟨false⟩ : KeywordAnalysisServiceState)) ∧
    exa_endpoint_guarded ⟨false, true⟩ (fun _ => .null)
      = (.error ⟨503, "Exa API not configured. Please set EXA_API_KEY environment variable."⟩,
         (⟨false, true⟩ : ExaAgentState)) ∧
    exa_endpoint_guarded ⟨true, false⟩ (fun _ => .null)
      = (.error ⟨503, "Gemini API not configured. Please set GEMINI_API_KEY environment variable."⟩,
         (⟨true, false⟩ : ExaAgentState)) :=
  ⟨missing_credentials_503.1 none (some "g") none true (Or.inl rfl),
   missing_credentials_503.2.1 ⟨false⟩ (fun _ => .null) "what is medianet" rfl,
   missing_credentials_503.2.2.1 (some "e") none none true (Or.inr rfl),
   missing_credentials_503.2.2.2.1 ⟨false⟩ (fun _ => .null) rfl,
   missing_credentials_503.2.2.2.2.1 ⟨false, true⟩ (fun _ => .null) rfl,
   missing_credentials_503.2.2.2.2.2 ⟨true, false⟩ (fun _ => .null) rfl rfl⟩

/-! ### Claim C9: heuristic score checklists (`advertiser.py analyze_website`) -/

/-- `image_seo_score = (alt_text_images / image_count * 100) if image_count > 0
else 0` (advertiser.py 379-380). -/
def image_seo_score (alt_text_images image_count : Nat) : ℚ :=
  if image_count > 0 then (alt_text_images : ℚ) / image_count * 100 else 0

/-- The six boolean SEO checklist indicators of `analyze_website`
(advertiser.py 426-433), in source order, as 0/1 values. -/
def seo_factors (title_length meta_desc_length h1_count total_headings : Nat)
    (img_seo : ℚ) (word_count : Nat) : List (String × Nat) := [
  ("title_length_optimal", if 30 ≤ title_length ∧ title_length ≤ 60 then 1 else 0),
  ("meta_desc_optimal", if 120 ≤ meta_desc_length ∧ meta_desc_length ≤ 160 then 1 else 0),
  ("h1_present", if h1_count > 0 then 1 else 0),
  ("heading_structure", if total_headings ≥ 3 then 1 else 0),
  ("image_alt_text", if img_seo > 80 then 1 else 0),
  ("content_length", if word_count ≥ 300 then 1 else 0)]

/-- `seo_score = sum(seo_factors.values()) / len(seo_factors) * 100`
(advertiser.py 434). -/
def seo_score (title_length meta_desc_length h1_count total_headings : Nat)
    (img_seo : ℚ) (word_count : Nat) : ℚ :=
  (((seo_factors title_length meta_desc_length h1_count total_headings img_seo
      word_count).map Prod.snd).sum : ℚ)
    / ((seo_factors title_length meta_desc_length h1_count total_headings img_seo
      word_count).length : ℚ) * 100

/-- The four boolean performance checklist indicators of `analyze_website`
(advertiser.py 437-442), in source order, as 0/1 values. -/
def perf_factors (script_count external_scripts css_count image_count : Nat) :
    List (String × Nat) := [
  ("script_count_reasonable", if script_count ≤ 10 then 1 else 0),
  ("external_script_minimal", if external_scripts ≤ 5 then 1 else 0),
  ("css_count_reasonable", if css_count ≤ 5 then 1 else 0),
  ("image_count_reasonable", if image_count ≤ 50 then 1 else 0)]

/-- `performance_score = sum(perf_factors.values()) / len(perf_factors) * 100`
(advertiser.py 443). -/
def performance_score (script_count external_scripts css_count image_count : Nat) : ℚ :=
  (((perf_factors script_count external_scripts css_count image_count).map
      Prod.snd).sum : ℚ)
    / ((perf_factors script_count external_scripts css_count image_count).length : ℚ)
    * 100

/-- C9.  For every analyzed page, the SEO score is exactly 100 times the
fraction of the 6 satisfied boolean SEO checklist items and the performance
score is exactly 100 times the fraction of the 4 satisfied boolean
performance checklist items; both scores always lie between 0 and 100. -/
theorem heuristic_scores_checklist :
    (∀ (tl md h1 th : Nat) (iss : ℚ) (wc : Nat),
        (seo_factors tl md h1 th iss wc).length = 6 ∧
        seo_score tl md h1 th iss wc
          = 100 * (((seo_factors tl md h1 th iss wc).filter
              (fun p => p.2 = 1)).length : ℚ) / 6 ∧
        0 ≤ seo_score tl md h1 th iss wc ∧
        seo_score tl md h1 th iss wc ≤ 100) ∧
    (∀ sc es cc ic : Nat,
        (perf_factors sc es cc ic).length = 4 ∧
        performance_score sc es cc ic
          = 100 * (((perf_factors sc es cc ic).filter
              (fun p => p.2 = 1)).length : ℚ) / 4 ∧
        0 ≤ performance_score sc es cc ic ∧
        performance_score sc es cc ic ≤ 100) := by
  constructor
  · intro tl md h1 th iss wc
    refine ⟨rfl, ?_, ?_, ?_⟩ <;>
      (simp only [seo_score, seo_factors]; split_ifs <;> norm_num)
  · intro sc es cc ic
    refine ⟨rfl, ?_, ?_, ?_⟩ <;>
      (simp only [performance_score, perf_factors]; split_ifs <;> norm_num)

/-! ### Claim C6: `call_gemini` truncation repair and totality
(`publisher.py` 202-269) -/

/-- Python `s.rfind(c)`: index of the last occurrence, `-1` if absent.
Accumulator form. -/
def pyRfindGo : Nat → Int → Char → List Char → Int
  | _, acc, _, [] => acc
  | i, acc, c, x :: rest => pyRfindGo (i + 1) (if x = c then (i : Int) else acc) c rest

/-- Python `s.rfind(c)`. -/
def pyRfind (c : Char) (cs : List Char) : Int := pyRfindGo 0 (-1) c cs

/-- Index of the last occurrence of a character, head-recursive form used to
prove the `pyRfind` specification. -/
def lastIdx (c : Char) : List Char → Option Nat
  | [] => none
  | x :: rest =>
    match lastIdx c rest with
    | some j => some (j + 1)
    | none => if x = c then some 0 else none

/-- Python `s.endswith(c)` for a single character. -/
def endsWithChar (c : Char) (cs : List Char) : Bool := cs.getLast? = some c

/-- The truncation-repair block of `call_gemini` (publisher.py 225-248): pick
the later of the last `}` and the last `]`; truncate there and append the
brace/bracket deficit (counted on the truncated text); the `elif
last_bracket > 0` comparison of the source is kept as is. -/
def repair_truncated (cs : List Char) : List Char :=
  let last_brace := pyRfind '}' cs
  let last_bracket := pyRfind ']' cs
  if last_brace > last_bracket then
    let t := cs.take (last_brace.toNat + 1)
    let open_braces : Int := t.count '{' - t.count '}'
    t ++ List.replicate open_braces.toNat '}'
  else if last_bracket > 0 then
    let t := cs.take (last_bracket.toNat + 1)
    let open_brackets : Int := t.count '[' - t.count ']'
    let open_braces : Int := t.count '{' - t.count '}'
    t ++ List.replicate open_brackets.toNat ']' ++ List.replicate open_braces.toNat '}'
  else cs

/-- Whitespace accepted between JSON tokens by `json.loads`. -/
def jsonWs (c : Char) : Bool := c = ' ' || c = '\t' || c = '\n' || c = '\r'

/-- Skip inter-token whitespace. -/
def skipJsonWs (cs : List Char) : List Char := cs.dropWhile jsonWs

/-- Decimal digit run with its value. -/
def digitsToNat (ds : List Char) : Nat := ds.foldl (fun a c => a * 10 + (c.toNat - 48)) 0

/-- Powers of ten in `ℚ`. -/
def pow10 : Nat → ℚ
  | 0 => 1
  | n + 1 => 10 * pow10 n

/-- JSON number parser (strict `json.loads` grammar: optional minus, integer
part without leading zeros, optional fraction and exponent; the `NaN` and
`Infinity` extensions of the Python parser are not modelled). -/
def parseNumber (cs : List Char) : Option (ℚ × List Char) :=
  let (neg, cs1) : Bool × List Char :=
    match cs with
    | '-' :: rest => (true, rest)
    | _ => (false, cs)
  let ds := cs1.takeWhile Char.isDigit
  if ds = [] then none
  else if ds.length > 1 && ds.getD 0 '0' = '0' then none
  else
    let cs2 := cs1.drop ds.length
    let (fds, cs3) : List Char × List Char :=
      match cs2 with
      | '.' :: rest => (rest.takeWhile Char.isDigit, rest.drop (rest.takeWhile Char.isDigit).length)
      | _ => ([], cs2)
    if cs2 ≠ cs3 && fds = [] then none
    else
      let hasExp := match cs3 with
        | 'e' :: _ => true
        | 'E' :: _ => true
        | _ => false
      let cs4 := if hasExp then cs3.drop 1 else cs3
      let (eneg, cs5) : Bool × List Char :=
        match cs4 with
        | '-' :: rest => (true, rest)
        | '+' :: rest => (false, rest)
        | _ => (false, cs4)
      let eds := cs5.takeWhile Char.isDigit
      if hasExp && eds = [] then none
      else
        let cs6 := if hasExp then cs5.drop eds.length else cs3
        let mantissa : ℚ :=
          (digitsToNat ds : ℚ) + (digitsToNat fds : ℚ) / pow10 fds.length
        let scaled : ℚ :=
          if hasExp then
            if eneg then mantissa / pow10 (digitsToNat eds)
            else mantissa * pow10 (digitsToNat eds)
          else mantissa
        some (if neg then -scaled else scaled, cs6)

/-- JSON string body parser, after the opening quote; handles the escape
sequences of `json.loads` (including `\uXXXX`, without surrogate pairing) and
rejects raw control characters. -/
def parseStringRest : Nat → List Char → Option (String × List Char)
  | 0, _ => none
  | _ + 1, [] => none
  | fuel + 1, c :: rest =>
    if c = '"' then some ("", rest)
    else if c = '\\' then
      match rest with
      | [] => none
      | e :: r2 =>
        let esc : Option (Char × List Char) :=
          if e = '"' then some ('"', r2)
          else if e = '\\' then some ('\\', r2)
          else if e = '/' then some ('/', r2)
          else if e = 'b' then some ('\x08', r2)
          else if e = 'f' then some ('\x0c', r2)
          else if e = 'n' then some ('\n', r2)
          else if e = 'r' then some ('\r', r2)
          else if e = 't' then some ('\t', r2)
          else if e = 'u' then
            let hx := r2.take 4
            if hx.length = 4 && hx.all (fun h => h.isDigit || ('a' ≤ h.toLower && h.toLower ≤ 'f')) then
              let v := hx.foldl (fun a h =>
                a * 16 + (if h.isDigit then h.toNat - 48 else h.toLower.toNat - 87)) 0
              some (Char.ofNat v, r2.drop 4)
            else none
          else none
        match esc with
        | some (ch, r3) =>
          match parseStringRest fuel r3 with
          | some (s, r4) => some (⟨ch :: s.data⟩, r4)
          | none => none
        | none => none
    else if c.toNat < 32 then none
    else
      match parseStringRest fuel rest with
      | some (s, r2) => some (⟨c :: s.data⟩, r2)
      | none => none

/-- Insert a parsed object member with Python dict semantics: an existing key
keeps its position and takes the new value, a new key is appended. -/
def insertMember (fs : List (String × Json)) (k : String) (v : Json) :
    List (String × Json) :=
  match fs with
  | [] => [(k, v)]
  | (k', v') :: rest =>
    if k' = k then (k', v) :: rest else (k', v') :: insertMember rest k v

mutual

/-- Recursive-descent JSON value parser modelling `json.loads`, fuelled by the
input length. -/
def parseValue : Nat → List Char → Option (Json × List Char)
  | 0, _ => none
  | fuel + 1, cs =>
    match skipJsonWs cs with
    | [] => none
    | c :: rest =>
      if c = 't' then
        if startsWithL "rue".data rest then some (.bool true, rest.drop 3) else none
      else if c = 'f' then
        if startsWithL "alse".data rest then some (.bool false, rest.drop 4) else none
      else if c = 'n' then
        if startsWithL "ull".data rest then some (.null, rest.drop 3) else none
      else if c = '"' then
        match parseStringRest rest.length rest with
        | some (s, r) => some (.str s, r)
        | none => none
      else if c = '{' then
        match skipJsonWs rest with
        | '}' :: r2 => some (.obj [], r2)
        | _ => parseMembers fuel rest []
      else if c = '[' then
        match skipJsonWs rest with
        | ']' :: r2 => some (.arr [], r2)
        | _ => parseElems fuel rest []
      else if c = '-' || c.isDigit then
        match parseNumber (c :: rest) with
        | some (q, r) => some (.num q, r)
        | none => none
      else none

/-- Object members: `"key" : value (, "key" : value)* }`. -/
def parseMembers : Nat → List Char → List (String × Json) → Option (Json × List Char)
  | 0, _, _ => none
  | fuel + 1, cs, acc =>
    match skipJsonWs cs with
    | '"' :: rest =>
      match parseStringRest rest.length rest with
      | some (k, r1) =>
        match skipJsonWs r1 with
        | ':' :: r2 =>
          match parseValue fuel r2 with
          | some (v, r3) =>
            let acc2 := insertMember acc k v
            match skipJsonWs r3 with
            | ',' :: r4 => parseMembers fuel r4 acc2
            | '}' :: r4 => some (.obj acc2, r4)
            | _ => none
          | none => none
        | _ => none
      | none => none
    | _ => none

/-- Array elements: `value (, value)* ]`. -/
def parseElems : Nat → List Char → List Json → Option (Json × List Char)
  | 0, _, _ => none
  | fuel + 1, cs, acc =>
    match parseValue fuel cs with
    | some (v, r1) =>
      let acc2 := acc ++ [v]
      match skipJsonWs r1 with
      | ',' :: r2 => parseElems fuel r2 acc2
      | ']' :: r2 => some (.arr acc2, r2)
      | _ => none
    | none => none

end

/-- Model of `json.loads`: a single JSON value with optional surrounding
whitespace and nothing after it. -/
def json_parse (cs : List Char) : Option Json :=
  match parseValue (cs.length + 1) cs with
  | some (j, rest) => if skipJsonWs rest = [] then some j else none
  | none => none

/-- The response text as `call_gemini` prepares it for `json.loads`: stripped,
and repaired when it ends in neither `}` nor `]`. -/
def gemini_response_text (s : String) : List Char :=
  let t := (pyStrip s).data
  if !endsWithChar '}' t && !endsWithChar ']' t then repair_truncated t else t

/-- Outcome of the external `gemini_model.generate_content` call. -/
inductive GeminiOutcome where
  | failure (msg : String)
  | empty
  | text (s : String)

/-- Model of publisher.py `call_gemini` (202-269).  `configured` is the
module-global `gemini_model` being non-None; the Python string built from the
`json.JSONDecodeError` (`f"Parse error at position {e.pos}: {e}"`) is
abstracted to a fixed detail string, as is the prompt (irrelevant to the
returned document's shape). -/
def call_gemini (o : GeminiOutcome) (configured : Bool) : Json :=
  if !configured then
    .obj [("error", .str "Gemini API not configured"),
          ("details", .str "Missing API key or initialization failed")]
  else
    match o with
    | .failure msg =>
        .obj [("error", .str "Gemini API call failed"), ("details", .str msg)]
    | .empty =>
        .obj [("error", .str "Empty response from Gemini"),
              ("details", .str "The API returned no content")]
    | .text s =>
      let t2 := gemini_response_text s
      match json_parse t2 with
      | some j => j
      | none =>
          .obj [("error", .str "Invalid JSON response from Gemini"),
                ("details", .str "Parse error"),
                ("raw_output", .str ⟨t2⟩),
                ("partial_analysis", .bool true)]

theorem pyRfindGo_eq_lastIdx (c : Char) :
    ∀ (cs : List Char) (i : Nat) (acc : Int),
      pyRfindGo i acc c cs
        = match lastIdx c cs with
          | some j => ((i + j : Nat) : Int)
          | none => acc := by
  intro cs
  induction cs with
  | nil => intro i acc; rfl
  | cons x rest ih =>
    intro i acc
    show pyRfindGo (i + 1) (if x = c then (i : Int) else acc) c rest = _
    rw [ih]
    cases h : lastIdx c rest with
    | some j =>
      simp only [lastIdx, h]
      push_cast
      ring
    | none =>
      simp only [lastIdx, h]
      by_cases hx : x = c <;> simp [hx]

theorem lastIdx_none_iff (c : Char) : ∀ cs : List Char, lastIdx c cs = none ↔ c ∉ cs := by
  intro cs
  induction cs with
  | nil => simp [lastIdx]
  | cons x rest ih =>
    simp only [lastIdx, List.mem_cons]
    cases h : lastIdx c rest with
    | some j =>
      have hc : c ∈ rest := by
        by_contra hn
        rw [ih.mpr hn] at h
        exact Option.noConfusion h
      simp [hc]
    | none =>
      have hc : c ∉ rest := ih.mp h
      by_cases hx : x = c
      · subst hx
        simp [hc]
      · simp [hc, hx, Ne.symm hx]

theorem getD_mem_of_lt {α : Type} {l : List α} {n : Nat} (h : n < l.length) (d : α) :
    l.getD n d ∈ l := by
  rw [List.getD_eq_getElem l d h]
  exact List.getElem_mem h

theorem lastIdx_some_spec (c : Char) :
    ∀ (cs : List Char) (j : Nat), lastIdx c cs = some j →
      j < cs.length ∧ cs.getD j ' ' = c ∧
      ∀ i, j < i → i < cs.length → cs.getD i ' ' ≠ c := by
  intro cs
  induction cs with
  | nil => intro j h; exact Option.noConfusion h
  | cons x rest ih =>
    intro j h
    simp only [lastIdx] at h
    cases hr : lastIdx c rest with
    | some j' =>
      rw [hr] at h
      injection h with h'
      subst h'
      obtain ⟨h1, h2, h3⟩ := ih j' hr
      refine ⟨Nat.succ_lt_succ h1, by simpa using h2, ?_⟩
      intro i hji hilen
      cases i with
      | zero => omega
      | succ k =>
        simp only [List.getD_cons_succ]
        exact h3 k (by omega) (by simpa using hilen)
    | none =>
      rw [hr] at h
      by_cases hx : x = c
      · rw [if_pos hx] at h
        injection h with h'
        subst h'
        refine ⟨Nat.succ_pos _, by simpa using hx, ?_⟩
        intro i h0i hilen
        cases i with
        | zero => omega
        | succ k =>
          simp only [List.getD_cons_succ]
          intro hcon
          exact (lastIdx_none_iff c rest).mp hr
            (hcon ▸ getD_mem_of_lt (by simpa using hilen) ' ')
      · rw [if_neg hx] at h
        exact Option.noConfusion h

/-- Specification of Python `rfind`: either the character is absent and the
result is `-1`, or the result is the index of the last occurrence. -/
theorem pyRfind_spec (c : Char) (cs : List Char) :
    (pyRfind c cs = -1 ∧ c ∉ cs) ∨
    (0 ≤ pyRfind c cs ∧ (pyRfind c cs).toNat < cs.length ∧
      cs.getD (pyRfind c cs).toNat ' ' = c ∧
      ∀ i, (pyRfind c cs).toNat < i → i < cs.length → cs.getD i ' ' ≠ c) := by
  have h0 := pyRfindGo_eq_lastIdx c cs 0 (-1)
  cases h : lastIdx c cs with
  | none =>
    left
    rw [h] at h0
    exact ⟨h0, (lastIdx_none_iff c cs).mp h⟩
  | some j =>
    right
    rw [h] at h0
    simp only [Nat.zero_add] at h0
    obtain ⟨h1, h2, h3⟩ := lastIdx_some_spec c cs j h
    have hr : pyRfind c cs = (j : Int) := h0
    rw [hr]
    simp only [Int.toNat_natCast]
    exact ⟨Int.natCast_nonneg j, h1, h2, h3⟩

/-- C6 (amended).  The repair step of `call_gemini` applies exactly when the
stripped response ends in neither `}` nor `]`.  When the text contains a `}`
anywhere, or a `]` beyond its first character, the repaired text is a prefix
of the original cut immediately after the last closing brace/bracket (no
closer occurs past the cut) followed only by closing braces/brackets;
otherwise — no closer at all, or the only closer a `]` as the very first
character, which the `elif last_bracket > 0` of the source skips — the text passes
through unchanged.  `call_gemini` itself is total: it returns the parsed JSON
value of the repaired text when it parses — a dictionary only when that value
is an object — and otherwise a record containing an `error` key. -/
theorem call_gemini_repair_contract :
    (∀ s : String,
        endsWithChar '}' (pyStrip s).data = false →
        endsWithChar ']' (pyStrip s).data = false →
        gemini_response_text s = repair_truncated (pyStrip s).data) ∧
    (∀ cs : List Char,
        (('}' ∉ cs ∧ ∀ i, i < cs.length → 0 < i → cs.getD i ' ' ≠ ']') →
          repair_truncated cs = cs) ∧
        (('}' ∈ cs ∨ ∃ i, i < cs.length ∧ 0 < i ∧ cs.getD i ' ' = ']') →
          ∃ n suf, repair_truncated cs = cs.take n ++ suf ∧
            (∀ c ∈ suf, c = '}' ∨ c = ']') ∧
            1 ≤ n ∧ n ≤ cs.length ∧
            (cs.getD (n - 1) ' ' = '}' ∨ cs.getD (n - 1) ' ' = ']') ∧
            ∀ i, n ≤ i → i < cs.length →
              cs.getD i ' ' ≠ '}' ∧ cs.getD i ' ' ≠ ']')) ∧
    (∀ (o : GeminiOutcome) (configured : Bool),
        (∃ t j, o = .text t ∧ configured = true ∧
            json_parse (gemini_response_text t) = some j ∧
            call_gemini o configured = j) ∨
        ((call_gemini o configured).getField "error").isSome = true) := by
  refine ⟨?_, ?_, ?_⟩
  · intro s h1 h2
    simp [gemini_response_text, h1, h2]
  · intro cs
    constructor
    · rintro ⟨hb, hk⟩
      have hb' : pyRfind '}' cs = -1 := by
        rcases pyRfind_spec '}' cs with ⟨h1, _⟩ | ⟨_, hlen, hval, _⟩
        · exact h1
        · exact absurd (hval ▸ getD_mem_of_lt hlen ' ') hb
      have hkm1 : (-1 : Int) ≤ pyRfind ']' cs := by
        rcases pyRfind_spec ']' cs with ⟨h, _⟩ | ⟨h, _⟩ <;> omega
      have hk' : pyRfind ']' cs ≤ 0 := by
        rcases pyRfind_spec ']' cs with ⟨h, _⟩ | ⟨hk0, hklen, hkval, _⟩
        · omega
        · by_contra hgt
          push_neg at hgt
          exact hk _ hklen (by omega) hkval
      have c1 : ¬ (pyRfind '}' cs > pyRfind ']' cs) := by
        rw [hb']
        omega
      have c2 : ¬ (pyRfind ']' cs > 0) := by omega
      simp [repair_truncated, c1, c2]
    · intro htc
      by_cases h1 : pyRfind '}' cs > pyRfind ']' cs
      · -- truncation at the last `}`
        have hkm1 : (-1 : Int) ≤ pyRfind ']' cs := by
          rcases pyRfind_spec ']' cs with ⟨h, _⟩ | ⟨h, _⟩ <;> omega
        have hb0 : 0 ≤ pyRfind '}' cs := by omega
        rcases pyRfind_spec '}' cs with ⟨hbe, _⟩ | ⟨_, hblen, hbval, hbafter⟩
        · omega
        refine ⟨(pyRfind '}' cs).toNat + 1,
          List.replicate (((cs.take ((pyRfind '}' cs).toNat + 1)).count '{' : Int)
            - ((cs.take ((pyRfind '}' cs).toNat + 1)).count '}' : Int)).toNat '}',
          ?_, ?_, by omega, by omega, Or.inl (by simpa using hbval), ?_⟩
        · simp only [repair_truncated]
          rw [if_pos h1]
        · intro c hc
          exact Or.inl (List.eq_of_mem_replicate hc)
        · intro i hni hilen
          refine ⟨hbafter i (by omega) hilen, ?_⟩
          rcases pyRfind_spec ']' cs with ⟨_, hknotin⟩ | ⟨hk0, _, _, hkafter⟩
          · intro hcon
            exact hknotin (hcon ▸ getD_mem_of_lt hilen ' ')
          · exact hkafter i (by omega) hilen
      · by_cases h2 : pyRfind ']' cs > 0
        · -- truncation at the last `]`
          rcases pyRfind_spec ']' cs with ⟨hke, _⟩ | ⟨hk0, hklen, hkval, hkafter⟩
          · omega
          refine ⟨(pyRfind ']' cs).toNat + 1,
            List.replicate (((cs.take ((pyRfind ']' cs).toNat + 1)).count '[' : Int)
              - ((cs.take ((pyRfind ']' cs).toNat + 1)).count ']' : Int)).toNat ']'
            ++ List.replicate (((cs.take ((pyRfind ']' cs).toNat + 1)).count '{' : Int)
              - ((cs.take ((pyRfind ']' cs).toNat + 1)).count '}' : Int)).toNat '}',
            ?_, ?_, by omega, by omega, Or.inr (by simpa using hkval), ?_⟩
          · simp only [repair_truncated]
            rw [if_neg h1, if_pos h2, List.append_assoc]
          · intro c hc
            rcases List.mem_append.mp hc with hc' | hc'
            · exact Or.inr (List.eq_of_mem_replicate hc')
            · exact Or.inl (List.eq_of_mem_replicate hc')
          · intro i hni hilen
            refine ⟨?_, hkafter i (by omega) hilen⟩
            rcases pyRfind_spec '}' cs with ⟨_, hbnotin⟩ | ⟨hb0, _, _, hbafter⟩
            · intro hcon
              exact hbnotin (hcon ▸ getD_mem_of_lt hilen ' ')
            · exact hbafter i (by omega) hilen
        · -- neither branch taken: contradicts the truncation condition
          exfalso
          rcases htc with hmem | ⟨i, hilen, hipos, hival⟩
          · rcases pyRfind_spec '}' cs with ⟨_, hbnotin⟩ | ⟨hb0, hblen, hbval, _⟩
            · exact hbnotin hmem
            · rcases pyRfind_spec ']' cs with ⟨hke, _⟩ | ⟨hk0, hklen, hkval, _⟩
              · omega
              · have hbk : (pyRfind '}' cs).toNat = (pyRfind ']' cs).toNat := by omega
                rw [hbk, hkval] at hbval
                exact absurd hbval (by decide)
          · rcases pyRfind_spec ']' cs with ⟨_, hknotin⟩ | ⟨hk0, hklen, hkval, hkafter⟩
            · exact hknotin (hival ▸ getD_mem_of_lt hilen ' ')
            · exact hkafter i (by omega) hilen hival
  · intro o conf
    cases conf with
    | false => right; rfl
    | true =>
      cases o with
      | failure msg => right; rfl
      | empty => right; rfl
      | text t =>
        cases h : json_parse (gemini_response_text t) with
        | some j =>
          left
          exact ⟨t, j, rfl, rfl, h, by simp [call_gemini, h]⟩
        | none =>
          right
          simp only [call_gemini, h]
          rfl

/-- Witness for C6: the plain word "hello" is in scope for the repair and is
unchanged (no closer at all); the text "ab\x7dc" contains a `}`, so the contract
yields its cut-and-append decomposition; and a failed API call produces the
error record. -/
theorem call_gemini_repair_witness :
    (endsWithChar '}' (pyStrip "hello").data = false ∧
      endsWithChar ']' (pyStrip "hello").data = false ∧
      gemini_response_text "hello" = repair_truncated (pyStrip "hello").data) ∧
    (('}' ∉ "hello".data ∧
        ∀ i, i < "hello".data.length → 0 < i → "hello".data.getD i ' ' ≠ ']') ∧
      repair_truncated "hello".data = "hello".data) ∧
    ('}' ∈ "ab\x7dc".data ∧
      ∃ n suf, repair_truncated "ab\x7dc".data = "ab\x7dc".data.take n ++ suf ∧
        (∀ c ∈ suf, c = '}' ∨ c = ']') ∧
        1 ≤ n ∧ n ≤ "ab\x7dc".data.length ∧
        ("ab\x7dc".data.getD (n - 1) ' ' = '}' ∨ "ab\x7dc".data.getD (n - 1) ' ' = ']') ∧
        ∀ i, n ≤ i → i < "ab\x7dc".data.length →
          "ab\x7dc".data.getD i ' ' ≠ '}' ∧ "ab\x7dc".data.getD i ' ' ≠ ']') ∧
    ((call_gemini (.failure "socket timeout") true).getField "error").isSome = true :=
  ⟨⟨by decide, by decide,
    call_gemini_repair_contract.1 "hello" (by decide) (by decide)⟩,
   ⟨⟨by decide, by decide⟩,
    (call_gemini_repair_contract.2.1 "hello".data).1 ⟨by decide, by decide⟩⟩,
   ⟨by decide,
    (call_gemini_repair_contract.2.1 "ab\x7dc".data).2 (Or.inl (by decide))⟩,
   (call_gemini_repair_contract.2.2 (.failure "socket timeout") true).resolve_left
     (by rintro ⟨t, j, h, -⟩; exact GeminiOutcome.noConfusion h)⟩

/-- Counterexample for C6 as stated: the in-scope response "[1,2]x" repairs to
"[1,2]", which parses to a JSON array, so `call_gemini` returns a list, not a
dictionary; the in-scope response "hello" is not truncated at any object or
array; and the in-scope response "]a" does contain a closer — a `]` at index
0 — yet the repair still leaves it untouched (the `elif last_bracket > 0`
branch of publisher.py 240 skips it). -/
theorem call_gemini_counterexample :
    (endsWithChar '}' (pyStrip "[1,2]x").data = false ∧
      endsWithChar ']' (pyStrip "[1,2]x").data = false ∧
      (call_gemini (.text "[1,2]x") true).isObj = false) ∧
    repair_truncated (pyStrip "hello").data = (pyStrip "hello").data ∧
    (endsWithChar '}' (pyStrip "]a").data = false ∧
      endsWithChar ']' (pyStrip "]a").data = false ∧
      (']' : Char) ∈ (pyStrip "]a").data ∧
      repair_truncated (pyStrip "]a").data = (pyStrip "]a").data) :=
  ⟨⟨by decide, by decide, by decide⟩, by decide,
   ⟨by decide, by decide, by decide, by decide⟩⟩
